import Mathlib

/-!
uinput: the absolute mouse and the generic gamepad

A shallow embedding of `mouseabs.go` and `generic_gamepad.go`.

Go functions that talk to the operating system become functions
`World → result × World`.  The `World` keeps the trace of the calls that reached
the operating system (oldest first), the set of descriptors that are open, and the
lines printed on standard output.  What the operating system answers to a call is
given by an `OS`, which may depend on the whole history.

An `error` is `Option GoError` (`none` is `nil`); a `(value, error)` pair is an
`Except GoError value`.  An `int32` is an `Int`, wrapped where the source computes on it;
a `uint16` or `int` code is a `Nat`.  A device name, a `[]byte` in the source, is the
`String` with these UTF-8 bytes, and its length is its number of bytes.

Helpers, types and constants that the two files use without declaring them are marked
as modelled from the spec in their doc comment.
-/

namespace Uinput

/-! ## Errors -/

/-- A Go error value: its message (`Error()`), and whether `os.IsNotExist`
recognises it. -/
structure GoError where
  msg : String
  notExist : Bool
deriving DecidableEq, Repr

/-- Go `errors.New`: a plain error that carries only a message. -/
def errorsNew (text : String) : GoError := ⟨text, false⟩

/-- Go `fmt.Errorf` with `%v` verbs only: the formatted text becomes the message of a
fresh plain error; the category of an error that was formatted into it is lost. -/
def fmtErrorf (text : String) : GoError := ⟨text, false⟩

/-- Go `os.IsNotExist`. -/
def osIsNotExist (err : Option GoError) : Bool :=
  match err with
  | none => false
  | some e => e.notExist

/-! ## Constants of the kernel interface

The declarations of these constants are not part of the sources at hand. -/

/-- Modelled from the spec: event-type tag of a sync record (kernel ABI, EV_SYN). -/
def evSyn : Nat := 0x00
/-- Modelled from the spec: event-type tag of a key event (kernel ABI, EV_KEY). -/
def evKey : Nat := 0x01
/-- Modelled from the spec: event-type tag of a relative-axis event (kernel ABI, EV_REL). -/
def evRel : Nat := 0x02
/-- Modelled from the spec: event-type tag of an absolute-axis event (kernel ABI, EV_ABS). -/
def evAbs : Nat := 0x03
/-- Modelled from the spec: event-type tag of a misc event (kernel ABI, EV_MSC). -/
def evMsc : Nat := 0x04
/-- Modelled from the spec: code of the sync marker (kernel ABI, SYN_REPORT). -/
def synReport : Nat := 0
/-- Modelled from the spec: key code of the left mouse button (kernel ABI, BTN_LEFT). -/
def evMouseBtnLeft : Nat := 0x110
/-- Modelled from the spec: key code of the right mouse button (kernel ABI, BTN_RIGHT). -/
def evMouseBtnRight : Nat := 0x111
/-- Modelled from the spec: key code of the middle mouse button (kernel ABI, BTN_MIDDLE). -/
def evMouseBtnMiddle : Nat := 0x112
/-- Modelled from the spec: value of a key-down event. -/
def btnStatePressed : Int := 1
/-- Modelled from the spec: value of a key-up event. -/
def btnStateReleased : Int := 0
/-- Modelled from the spec: code of the absolute X axis (kernel ABI, ABS_X). -/
def absX : Nat := 0x00
/-- Modelled from the spec: code of the absolute Y axis (kernel ABI, ABS_Y). -/
def absY : Nat := 0x01
/-- Modelled from the spec: code of the vertical wheel (kernel ABI, REL_WHEEL). -/
def relWheel : Nat := 0x08
/-- Modelled from the spec: code of the horizontal wheel (kernel ABI, REL_HWHEEL). -/
def relHWheel : Nat := 0x06
/-- Modelled from the spec: length of the per-axis arrays of the descriptor, the kernel's
maximum absolute-axis-code constant plus one (kernel ABI, ABS_CNT). -/
def absSize : Nat := 64
/-- Modelled from the spec: size of the fixed name buffer of the descriptor
(kernel ABI, UINPUT_MAX_NAME_SIZE). -/
def uinputMaxNameSize : Nat := 80
/-- Modelled from the spec: bus type USB (kernel ABI, BUS_USB). -/
def busUsb : Nat := 0x03
/-- Modelled from the spec: control call "enable key code" (kernel ABI, UI_SET_KEYBIT). -/
def uiSetKeyBit : Nat := 0x40045565
/-- Modelled from the spec: control call "enable relative code" (kernel ABI, UI_SET_RELBIT). -/
def uiSetRelBit : Nat := 0x40045566
/-- Modelled from the spec: control call "enable absolute code" (kernel ABI, UI_SET_ABSBIT). -/
def uiSetAbsBit : Nat := 0x40045567
/-- Modelled from the spec: control call "enable misc code" (kernel ABI, UI_SET_MSCBIT). -/
def uiSetMscBit : Nat := 0x40045568

/-- Go conversion `uint16(n)` of a non-negative integer. -/
def uint16 (n : Nat) : Nat := n % 2 ^ 16

/-- Two's complement wrap of an integer to `int32`. -/
def wrapInt32 (i : Int) : Int := (i + 2 ^ 31) % 2 ^ 32 - 2 ^ 31

/-! ## Records -/

/-- Go `syscall.Timeval`. -/
structure Timeval where
  Sec : Int
  Usec : Int
deriving DecidableEq, Repr

/-- Modelled from the spec: the event record (its declaration is not in the sources):
a timestamp, an event-type tag, a code and a signed 32-bit value.  The field `Type` of
the source is `EvType` here. -/
structure inputEvent where
  Time : Timeval
  EvType : Nat
  Code : Nat
  Value : Int
deriving DecidableEq, Repr

/-- Modelled from the spec: the identifiers of the descriptor (declaration not in the
sources): bus type, vendor, product, version. -/
structure inputID where
  Bustype : Nat
  Vendor : Nat
  Product : Nat
  Version : Nat
deriving DecidableEq, Repr

/-- Modelled from the spec: the device descriptor (declaration not in the sources): the
name buffer, the identifiers and the per-axis minimum/maximum/fuzz/flat arrays. -/
structure uinputUserDev where
  Name : List Nat
  ID : inputID
  Absmax : List Int
  Absmin : List Int
  Absfuzz : List Int
  Absflat : List Int
deriving DecidableEq, Repr

/-- The zero value of a Go array `[absSize]int32`. -/
def zeroAxes : List Int := List.replicate absSize 0

/-! ## The operating system and the world -/

/-- The calls that reach the operating system.  A descriptor is a number. -/
inductive Call where
  /-- the file-system lookup of the path check -/
  | stat (path : String)
  /-- open the control device -/
  | createDeviceFile (path : String)
  /-- control call "enable category" -/
  | registerDevice (fd : Nat) (evType : Nat)
  /-- control call "enable code" -/
  | ioctl (fd : Nat) (request : Nat) (arg : Nat)
  /-- descriptor write that finalises device creation -/
  | createUsbDevice (fd : Nat) (dev : uinputUserDev)
  /-- write of one encoded event record -/
  | write (fd : Nat) (buf : inputEvent)
  /-- close of the descriptor -/
  | close (fd : Nat)
  /-- destroy the device and release the descriptor -/
  | closeDevice (fd : Nat)
  /-- syspath query -/
  | fetchSyspath (fd : Nat)
deriving DecidableEq, Repr

/-- One entry of the trace: the call and what the operating system answered
(`none`: success). -/
structure Event where
  call : Call
  err : Option GoError
deriving DecidableEq, Repr

/-- The operating system: its answer to a call after a given history, the descriptor it
hands out on a successful open, and the system name it reports for a descriptor. -/
structure OS where
  respond : List Event → Call → Option GoError
  newFd : List Event → String → Nat
  sysname : List Event → Nat → String

/-- The state of the world around the program. -/
structure World where
  trace : List Event
  openFds : List Nat
  stdout : List String
deriving DecidableEq, Repr

/-- Issue a call: ask the operating system and append the call with its answer to the
trace. -/
def issue (os : OS) (c : Call) (w : World) : Option GoError × World :=
  (os.respond w.trace c, { w with trace := w.trace ++ [⟨c, os.respond w.trace c⟩] })

/-- Modelled from the spec: the error of an operation on a closed handle ("device
closed"); it is produced without reaching the device. -/
def errClosed : GoError := errorsNew "device closed"

/-- Go `(*os.File).Write` of one encoded record.  Modelled from the spec: a write on a
closed handle fails with the closed-device error and writes nothing. -/
def fileWrite (os : OS) (fd : Nat) (buf : inputEvent) (w : World) : Option GoError × World :=
  if fd ∈ w.openFds then issue os (.write fd buf) w else (some errClosed, w)

/-- Go `(*os.File).Close`: releases the descriptor; on a closed handle it fails and does
nothing. -/
def fileClose (os : OS) (fd : Nat) (w : World) : Option GoError × World :=
  if fd ∈ w.openFds then
    ((issue os (.close fd) w).1,
      { (issue os (.close fd) w).2 with openFds := w.openFds.filter (fun d => d ≠ fd) })
  else (some errClosed, w)

/-- Go `%x` of an unsigned number: lower-case hexadecimal digits. -/
def fmtHex (n : Nat) : String := String.mk (Nat.toDigits 16 n)


/-! ## Helpers that are not part of the sources at hand -/

/-- Modelled from the spec: the binary codec (`inputEventToBuffer` is not in the sources)
is a pure, deterministic serialization without an error case; the byte buffer is kept
abstract and identified with the record it encodes. -/
def inputEventToBuffer (iev : inputEvent) : Except GoError inputEvent := .ok iev

/-- Modelled from the spec: `syncEvents` is not in the sources.  It writes the sync record
that terminates one atomic input frame and returns the error of that write. -/
def syncEvents (os : OS) (deviceFile : Nat) (w : World) : Option GoError × World :=
  match inputEventToBuffer
      { Time := { Sec := 0, Usec := 0 }, EvType := evSyn, Code := uint16 synReport, Value := 0 } with
  | .error err => (some err, w)
  | .ok buf => fileWrite os deviceFile buf w

/-- The loop of `sendBtnEvent`: one key event per key code, carrying the button state. -/
def sendBtnEventLoop (os : OS) (deviceFile : Nat) (btnState : Int) :
    List Nat → World → Option GoError × World
  | [], w => (none, w)
  | key :: rest, w =>
    match inputEventToBuffer
        { Time := { Sec := 0, Usec := 0 }, EvType := evKey, Code := uint16 key,
          Value := btnState } with
    | .error err => (some err, w)
    | .ok buf =>
      match fileWrite os deviceFile buf w with
      | (some err, w1) => (some err, w1)
      | (none, w1) => sendBtnEventLoop os deviceFile btnState rest w1

/-- Modelled from the spec: `sendBtnEvent` is not in the sources.  Press is a key-down
event plus sync, release is a key-up event plus sync: for each key code one key event with
the button state is written, then the sync record; the first failing write ends the action
with its error (the spec does not give the wording of a wrapping). -/
def sendBtnEvent (os : OS) (deviceFile : Nat) (keys : List Nat) (btnState : Int) (w : World) :
    Option GoError × World :=
  match sendBtnEventLoop os deviceFile btnState keys w with
  | (some err, w1) => (some err, w1)
  | (none, w1) => syncEvents os deviceFile w1

/-- Modelled from the spec: `closeDevice` is not in the sources.  Closing destroys the
device and releases the descriptor, after which the handle is unusable; closing a closed
handle returns an error. -/
def closeDevice (os : OS) (deviceFile : Nat) (w : World) : Option GoError × World :=
  if deviceFile ∈ w.openFds then
    ((issue os (.closeDevice deviceFile) w).1,
      { (issue os (.closeDevice deviceFile) w).2 with
        openFds := w.openFds.filter (fun d => d ≠ deviceFile) })
  else (some errClosed, w)

/-- Modelled from the spec: `fetchSyspath` is not in the sources.  It reads the kernel
attribute of the open descriptor to resolve the system path of the device; on a closed
handle it fails with the closed-device error. -/
def fetchSyspath (os : OS) (deviceFile : Nat) (w : World) : (String × Option GoError) × World :=
  if deviceFile ∈ w.openFds then
    match issue os (.fetchSyspath deviceFile) w with
    | (some err, w1) => (("", some err), w1)
    | (none, w1) => (("/sys/devices/virtual/input/" ++ os.sysname w.trace deviceFile, none), w1)
  else (("", some errClosed), w)

/-! ## `mouseabs.go`: the action methods -/

/-- Go `vMouseAbs`: the handle of an absolute mouse. -/
structure vMouseAbs where
  name : String
  deviceFile : Nat
deriving DecidableEq, Repr

/-- The `for _, iev := range ev` loop of `sendAbsEvent`. -/
def sendAbsEventLoop (os : OS) (deviceFile : Nat) : List inputEvent → World → Option GoError × World
  | [], w => (none, w)
  | iev :: rest, w =>
    match inputEventToBuffer iev with
    | .error err => (some (fmtErrorf ("writing abs event failed: " ++ err.msg)), w)
    | .ok buf =>
      match fileWrite os deviceFile buf w with
      | (some err, w1) =>
        (some (fmtErrorf ("failed to write abs event to device file: " ++ err.msg)), w1)
      | (none, w1) => sendAbsEventLoop os deviceFile rest w1

/-- Go `vMouseAbs.sendAbsEvent`. -/
def vMouseAbs.sendAbsEvent (os : OS) (vAbs : vMouseAbs) (xPos yPos : Int) (w : World) :
    Option GoError × World :=
  let ev0 : inputEvent := { Time := { Sec := 0, Usec := 0 }, EvType := evAbs, Code := absX, Value := xPos }
  let yPos := if xPos = 0 ∧ yPos = 0 then wrapInt32 (yPos - 1) else yPos
  let ev1 : inputEvent := { Time := { Sec := 0, Usec := 0 }, EvType := evAbs, Code := absY, Value := yPos }
  match sendAbsEventLoop os vAbs.deviceFile [ev0, ev1] w with
  | (some err, w1) => (some err, w1)
  | (none, w1) => syncEvents os vAbs.deviceFile w1

/-- Go `vMouseAbs.sendRelEvent`. -/
def vMouseAbs.sendRelEvent (os : OS) (vAbs : vMouseAbs) (eventCode : Nat) (pixel : Int) (w : World) :
    Option GoError × World :=
  let iev : inputEvent :=
    { Time := { Sec := 0, Usec := 0 }, EvType := evRel, Code := eventCode, Value := pixel }
  match inputEventToBuffer iev with
  | .error err => (some (fmtErrorf ("writing abs event failed: " ++ err.msg)), w)
  | .ok buf =>
    match fileWrite os vAbs.deviceFile buf w with
    | (some err, w1) =>
      (some (fmtErrorf ("failed to write rel event to device file: " ++ err.msg)), w1)
    | (none, w1) => syncEvents os vAbs.deviceFile w1

/-- Go `vMouseAbs.MoveTo`. -/
def vMouseAbs.MoveTo (os : OS) (vAbs : vMouseAbs) (x y : Int) (w : World) : Option GoError × World :=
  vAbs.sendAbsEvent os x y w

/-- Go `vMouseAbs.LeftClick`. -/
def vMouseAbs.LeftClick (os : OS) (vAbs : vMouseAbs) (w : World) : Option GoError × World :=
  match sendBtnEvent os vAbs.deviceFile [evMouseBtnLeft] btnStatePressed w with
  | (some err, w1) => (some (fmtErrorf ("Failed to issue the LeftClick event: " ++ err.msg)), w1)
  | (none, w1) => sendBtnEvent os vAbs.deviceFile [evMouseBtnLeft] btnStateReleased w1

/-- Go `vMouseAbs.RightClick`. -/
def vMouseAbs.RightClick (os : OS) (vAbs : vMouseAbs) (w : World) : Option GoError × World :=
  match sendBtnEvent os vAbs.deviceFile [evMouseBtnRight] btnStatePressed w with
  | (some err, w1) => (some (fmtErrorf ("Failed to issue the RightClick event: " ++ err.msg)), w1)
  | (none, w1) => sendBtnEvent os vAbs.deviceFile [evMouseBtnRight] btnStateReleased w1

/-- Go `vMouseAbs.MiddleClick`. -/
def vMouseAbs.MiddleClick (os : OS) (vAbs : vMouseAbs) (w : World) : Option GoError × World :=
  match sendBtnEvent os vAbs.deviceFile [evMouseBtnMiddle] btnStatePressed w with
  | (some err, w1) => (some (fmtErrorf ("Failed to issue the MiddleClick event: " ++ err.msg)), w1)
  | (none, w1) => sendBtnEvent os vAbs.deviceFile [evMouseBtnMiddle] btnStateReleased w1

/-- Go `vMouseAbs.LeftPress`. -/
def vMouseAbs.LeftPress (os : OS) (vAbs : vMouseAbs) (w : World) : Option GoError × World :=
  sendBtnEvent os vAbs.deviceFile [evMouseBtnLeft] btnStatePressed w

/-- Go `vMouseAbs.LeftRelease`. -/
def vMouseAbs.LeftRelease (os : OS) (vAbs : vMouseAbs) (w : World) : Option GoError × World :=
  sendBtnEvent os vAbs.deviceFile [evMouseBtnLeft] btnStateReleased w

/-- Go `vMouseAbs.RightPress`. -/
def vMouseAbs.RightPress (os : OS) (vAbs : vMouseAbs) (w : World) : Option GoError × World :=
  sendBtnEvent os vAbs.deviceFile [evMouseBtnRight] btnStatePressed w

/-- Go `vMouseAbs.RightRelease`. -/
def vMouseAbs.RightRelease (os : OS) (vAbs : vMouseAbs) (w : World) : Option GoError × World :=
  sendBtnEvent os vAbs.deviceFile [evMouseBtnRight] btnStateReleased w

/-- Go `vMouseAbs.MiddlePress`. -/
def vMouseAbs.MiddlePress (os : OS) (vAbs : vMouseAbs) (w : World) : Option GoError × World :=
  sendBtnEvent os vAbs.deviceFile [evMouseBtnMiddle] btnStatePressed w

/-- Go `vMouseAbs.MiddleRelease`. -/
def vMouseAbs.MiddleRelease (os : OS) (vAbs : vMouseAbs) (w : World) : Option GoError × World :=
  sendBtnEvent os vAbs.deviceFile [evMouseBtnMiddle] btnStateReleased w

/-- Go `vMouseAbs.Wheel`. -/
def vMouseAbs.Wheel (os : OS) (vAbs : vMouseAbs) (horizontal : Bool) (delta : Int) (w : World) :
    Option GoError × World :=
  let w0 := if horizontal then relHWheel else relWheel
  vAbs.sendRelEvent os (uint16 w0) delta w

/-- Go `vMouseAbs.Close`. -/
def vMouseAbs.Close (os : OS) (vAbs : vMouseAbs) (w : World) : Option GoError × World :=
  closeDevice os vAbs.deviceFile w

/-- Go `vMouseAbs.FetchSyspath`. -/
def vMouseAbs.FetchSyspath (os : OS) (vAbs : vMouseAbs) (w : World) :
    (String × Option GoError) × World :=
  fetchSyspath os vAbs.deviceFile w


/-! ## Device creation: helpers that are not part of the sources at hand -/

/-- Modelled from the spec: `validateDevicePath` is not in the sources.  An empty path is
the configuration error, found before any system call; for a path that is missing the
error of the operating system is returned as such, in its recognisable category (the test
`TestMouseAbsCreationFailsOnNonExistentPathName` asks `os.IsNotExist` of the error that
`CreateMouseAbs` hands on unchanged). -/
def validateDevicePath (os : OS) (path : String) (w : World) : Option GoError × World :=
  if path = "" then (some (errorsNew "device path must not be empty"), w)
  else issue os (.stat path) w

/-- Modelled from the spec: `validateUinputName` is not in the sources.  An empty name and
a name longer than the name buffer are configuration errors; the message of the latter is
the one of `TestMouseAbsCreationFailsIfNameIsTooLong`.  The length of a name is its number
of bytes. -/
def validateUinputName (name : String) : Option GoError :=
  if name.utf8ByteSize = 0 then some (errorsNew "device name may not be empty")
  else if name.utf8ByteSize > uinputMaxNameSize then
    some (fmtErrorf ("device name " ++ name ++ " is too long (maximum of "
      ++ toString uinputMaxNameSize ++ " characters allowed)"))
  else none

/-- Modelled from the spec: `toUinputName` is not in the sources.  The name is copied into
the fixed-size buffer of the descriptor and padded with zero bytes. -/
def toUinputName (name : String) : List Nat :=
  ((name.data.map String.utf8EncodeChar).flatten.map UInt8.toNat).take uinputMaxNameSize
    ++ List.replicate (uinputMaxNameSize - name.utf8ByteSize) 0

/-- Modelled from the spec: `createDeviceFile` is not in the sources.  It opens the path
for reading and writing; on success the descriptor handed out is open. -/
def createDeviceFile (os : OS) (path : String) (w : World) : Except GoError Nat × World :=
  match issue os (.createDeviceFile path) w with
  | (some err, w1) => (.error err, w1)
  | (none, w1) =>
    (.ok (os.newFd w.trace path), { w1 with openFds := os.newFd w.trace path :: w1.openFds })

/-- Modelled from the spec: `registerDevice` is not in the sources.  It issues the control
call "enable category" for an event type. -/
def registerDevice (os : OS) (deviceFile : Nat) (evType : Nat) (w : World) : Option GoError × World :=
  issue os (.registerDevice deviceFile evType) w

/-- Modelled from the spec: `ioctl` is not in the sources.  It issues one control call with
a request number and an argument. -/
def ioctl (os : OS) (deviceFile : Nat) (request : Nat) (arg : Nat) (w : World) :
    Option GoError × World :=
  issue os (.ioctl deviceFile request arg) w

/-- Modelled from the spec: `createUsbDevice` is not in the sources.  It writes the encoded
descriptor to the open file, which finalises the creation of the device, and returns the
ready descriptor; on failure the descriptor is closed.  The fixed delay after creation is
not modelled. -/
def createUsbDevice (os : OS) (deviceFile : Nat) (dev : uinputUserDev) (w : World) :
    Except GoError Nat × World :=
  match issue os (.createUsbDevice deviceFile dev) w with
  | (some err, w1) => (.error err, (fileClose os deviceFile w1).2)
  | (none, w1) => (.ok deviceFile, w1)

/-! ## `mouseabs.go` and `generic_gamepad.go`: device creation -/

/-- The registration loops `for _, code := range codes` of the two creation functions:
an optional line on standard output (`announce`), the control call, and on failure the
close of the device file and the error built by `describe`. -/
def registerCodes (os : OS) (deviceFile : Nat) (request : Nat) (announce : Nat → List String)
    (describe : Nat → String) : List Nat → World → Option GoError × World
  | [], w => (none, w)
  | code :: rest, w =>
    match ioctl os deviceFile request code { w with stdout := w.stdout ++ announce code } with
    | (some err, w1) =>
      (some (fmtErrorf (describe code ++ err.msg)), (fileClose os deviceFile w1).2)
    | (none, w1) => registerCodes os deviceFile request announce describe rest w1

/-- Go `createMouseAbs`. -/
def createMouseAbs (os : OS) (path : String) (name : String) (minX maxX minY maxY : Int)
    (w : World) : Except GoError Nat × World :=
  match createDeviceFile os path w with
  | (.error err, w1) =>
    (.error (fmtErrorf ("could not create absolute axis input device: " ++ err.msg)), w1)
  | (.ok deviceFile, w1) =>
  match registerDevice os deviceFile evKey w1 with
  | (some err, w2) =>
    (.error (fmtErrorf ("failed to register key device: " ++ err.msg)),
      (fileClose os deviceFile w2).2)
  | (none, w2) =>
  match registerCodes os deviceFile uiSetKeyBit (fun _ => [])
      (fun event => "failed to register click event " ++ toString event ++ ": ")
      [evMouseBtnLeft, evMouseBtnRight, evMouseBtnMiddle] w2 with
  | (some err, w3) => (.error err, w3)
  | (none, w3) =>
  match registerDevice os deviceFile evRel w3 with
  | (some err, w4) =>
    (.error (fmtErrorf ("failed to register relative axis input device: " ++ err.msg)),
      (fileClose os deviceFile w4).2)
  | (none, w4) =>
  match registerCodes os deviceFile uiSetRelBit (fun _ => [])
      (fun event => "failed to register relative event " ++ toString event ++ ": ")
      [relWheel, relHWheel] w4 with
  | (some err, w5) => (.error err, w5)
  | (none, w5) =>
  match registerDevice os deviceFile evAbs w5 with
  | (some err, w6) =>
    (.error (fmtErrorf ("failed to register absolute axis input device: " ++ err.msg)),
      (fileClose os deviceFile w6).2)
  | (none, w6) =>
  match registerCodes os deviceFile uiSetAbsBit (fun _ => [])
      (fun event => "failed to register absolute axis event " ++ toString event ++ ": ")
      [absX, absY] w6 with
  | (some err, w7) => (.error err, w7)
  | (none, w7) =>
    createUsbDevice os deviceFile
      { Name := toUinputName name,
        ID := { Bustype := busUsb, Vendor := 0x4711, Product := 0x0816, Version := 1 },
        Absmin := (zeroAxes.set absX minX).set absY minY,
        Absmax := (zeroAxes.set absX maxX).set absY maxY,
        Absfuzz := zeroAxes,
        Absflat := zeroAxes } w7

/-- Go `CreateMouseAbs`. -/
def CreateMouseAbs (os : OS) (path : String) (name : String) (minX maxX minY maxY : Int)
    (w : World) : Except GoError vMouseAbs × World :=
  match validateDevicePath os path w with
  | (some err, w1) => (.error err, w1)
  | (none, w1) =>
  match validateUinputName name with
  | some err => (.error err, w1)
  | none =>
  match createMouseAbs os path name minX maxX minY maxY w1 with
  | (.error err, w2) => (.error err, w2)
  | (.ok fd, w2) => (.ok { name := name, deviceFile := fd }, w2)

/-- Go `vGamepad` (its declaration is not in the sources; the two fields are those that
`CreateGenericGamepad` sets). -/
structure vGamepad where
  name : String
  deviceFile : Nat
deriving DecidableEq, Repr

/-- Go `createVGenericGamepadDevice`. -/
def createVGenericGamepadDevice (os : OS) (path : String) (bustype : Nat) (name : String)
    (vendor product version : Nat) (keys absEvents mscEvents : List Nat) (w : World) :
    Except GoError Nat × World :=
  match createDeviceFile os path w with
  | (.error err, w1) =>
    (.error (fmtErrorf ("failed to create virtual gamepad device: " ++ err.msg)), w1)
  | (.ok deviceFile, w1) =>
  match registerDevice os deviceFile evKey w1 with
  | (some err, w2) =>
    (.error (fmtErrorf ("failed to register virtual gamepad device: " ++ err.msg)),
      (fileClose os deviceFile w2).2)
  | (none, w2) =>
  match registerCodes os deviceFile uiSetKeyBit
      (fun code => ["registering uiSetKeyBit 0x" ++ fmtHex code ++ "\n"])
      (fun code => "failed to register key number " ++ toString code ++ ": ") keys w2 with
  | (some err, w3) => (.error err, w3)
  | (none, w3) =>
  match registerDevice os deviceFile evAbs w3 with
  | (some err, w4) =>
    (.error (fmtErrorf ("failed to register absolute event input device: " ++ err.msg)),
      (fileClose os deviceFile w4).2)
  | (none, w4) =>
  match registerCodes os deviceFile uiSetAbsBit
      (fun event => ["registering uiSetAbsBit 0x" ++ fmtHex event ++ "\n"])
      (fun event => "failed to register absolute event " ++ toString event ++ ": ")
      absEvents w4 with
  | (some err, w5) => (.error err, w5)
  | (none, w5) =>
  match
    (if mscEvents.length > 0 then
      match registerDevice os deviceFile evMsc w5 with
      | (some err, w6) =>
        (some (fmtErrorf ("failed to register misc event input device: " ++ err.msg)),
          (fileClose os deviceFile w6).2)
      | (none, w6) =>
        registerCodes os deviceFile uiSetMscBit
          (fun event => ["registering uiSetMscBit 0x" ++ fmtHex event ++ "\n"])
          (fun event => "failed to register misc event " ++ toString event ++ ": ")
          mscEvents w6
    else (none, w5)) with
  | (some err, w7) => (.error err, w7)
  | (none, w7) =>
    createUsbDevice os deviceFile
      { Name := toUinputName name,
        ID := { Bustype := bustype, Vendor := vendor, Product := product, Version := version },
        Absmin := zeroAxes,
        Absmax := zeroAxes,
        Absfuzz := zeroAxes,
        Absflat := zeroAxes } w7

/-- Go `CreateGenericGamepad`. -/
def CreateGenericGamepad (os : OS) (path : String) (bustype : Nat) (name : String)
    (vendor product version : Nat) (keys absEvents mscEvents : List Nat) (w : World) :
    Except GoError vGamepad × World :=
  match validateDevicePath os path w with
  | (some err, w1) => (.error err, w1)
  | (none, w1) =>
  match validateUinputName name with
  | some err => (.error err, w1)
  | none =>
  match createVGenericGamepadDevice os path bustype name vendor product version
      keys absEvents mscEvents w1 with
  | (.error err, w2) => (.error err, w2)
  | (.ok fd, w2) => (.ok { name := name, deviceFile := fd }, w2)


/-! ## Vocabulary of the statements -/

/-- What "a click is a press followed by a release" says for one button with key code
`key`: the press writes key-down and sync, the release that follows writes key-up and sync,
both without error, and the click does what the press followed by the release does. -/
def ClickIsPressThenRelease (fd : Nat) (key : Nat)
    (click press release : World → Option GoError × World) (w : World) : Prop :=
  press w = (none, { w with trace := w.trace ++
      [⟨.write fd ⟨⟨0, 0⟩, evKey, key, 1⟩, none⟩,
       ⟨.write fd ⟨⟨0, 0⟩, evSyn, synReport, 0⟩, none⟩] }) ∧
  release (press w).2 = (none, { w with trace := w.trace ++
      [⟨.write fd ⟨⟨0, 0⟩, evKey, key, 1⟩, none⟩,
       ⟨.write fd ⟨⟨0, 0⟩, evSyn, synReport, 0⟩, none⟩,
       ⟨.write fd ⟨⟨0, 0⟩, evKey, key, 0⟩, none⟩,
       ⟨.write fd ⟨⟨0, 0⟩, evSyn, synReport, 0⟩, none⟩] }) ∧
  click w = release (press w).2

/-- A registration control call: "enable category" or "enable code". -/
def Call.isRegistration : Call → Bool
  | .registerDevice _ _ => true
  | .ioctl _ _ _ => true
  | _ => false

/-- The descriptor write that finalises device creation. -/
def Call.isDescriptorWrite : Call → Bool
  | .createUsbDevice _ _ => true
  | _ => false

/-- The enable-code control calls of a trace, in order, as pairs of request and code. -/
def enableCodeCalls : List Event → List (Nat × Nat)
  | [] => []
  | ⟨.ioctl _ request arg, _⟩ :: rest => (request, arg) :: enableCodeCalls rest
  | _ :: rest => enableCodeCalls rest

/-- The text that `createMouseAbs` puts in front of the error of a failed registration
control call, by call. -/
def mouseAbsStepText : Call → String
  | .registerDevice _ evType =>
    if evType = evKey then "failed to register key device: "
    else if evType = evRel then "failed to register relative axis input device: "
    else "failed to register absolute axis input device: "
  | .ioctl _ request event =>
    if request = uiSetKeyBit then "failed to register click event " ++ toString event ++ ": "
    else if request = uiSetRelBit then "failed to register relative event " ++ toString event ++ ": "
    else "failed to register absolute axis event " ++ toString event ++ ": "
  | _ => ""

/-- The text that `createVGenericGamepadDevice` puts in front of the error of a failed
registration control call, by call. -/
def gamepadStepText : Call → String
  | .registerDevice _ evType =>
    if evType = evKey then "failed to register virtual gamepad device: "
    else if evType = evAbs then "failed to register absolute event input device: "
    else "failed to register misc event input device: "
  | .ioctl _ request code =>
    if request = uiSetKeyBit then "failed to register key number " ++ toString code ++ ": "
    else if request = uiSetAbsBit then "failed to register absolute event " ++ toString code ++ ": "
    else "failed to register misc event " ++ toString code ++ ": "
  | _ => ""

/-- A creation that started in world `w` and ended with `res` was aborted at the failed
call `ev` with error `e`: every call before `ev` succeeded and none of them was the
descriptor write, after `ev` nothing but the close of the descriptor `fd` was issued, the
descriptor is closed, and instead of a handle the error with the text of the step followed
by the message of `e` is returned. -/
def AbortedAt {α : Type} (text : Call → String) (fd : Nat) (w : World) (ev : Event) (e : GoError)
    (res : Except GoError α × World) : Prop :=
  ∃ pre r, res.2.trace = w.trace ++ pre ++ [ev, ⟨.close fd, r⟩] ∧
    (∀ p ∈ pre, p.err = none ∧ p.call.isDescriptorWrite = false) ∧
    res.1 = .error (fmtErrorf (text ev.call ++ e.msg)) ∧
    fd ∉ res.2.openFds

/-- A creation was aborted at some failed registration control call. -/
def Aborted {α : Type} (text : Call → String) (fd : Nat) (w : World)
    (res : Except GoError α × World) : Prop :=
  ∃ ev e, ev.call.isRegistration = true ∧ ev.err = some e ∧ AbortedAt text fd w ev e res

/-- No registration control call of a creation failed. -/
def Unfailed {α : Type} (w : World) (res : Except GoError α × World) : Prop :=
  ∃ issued, res.2.trace = w.trace ++ issued ∧
    ∀ p ∈ issued, p.call.isRegistration = true → p.err = none

/-- The registration calls of `createVGenericGamepadDevice` on descriptor `fd` when all
of them succeed. -/
def gamepadRegistration (fd : Nat) (keys absEvents mscEvents : List Nat) : List Event :=
  [⟨.registerDevice fd evKey, none⟩] ++ keys.map (fun code => ⟨.ioctl fd uiSetKeyBit code, none⟩)
    ++ [⟨.registerDevice fd evAbs, none⟩]
    ++ absEvents.map (fun event => ⟨.ioctl fd uiSetAbsBit event, none⟩)
    ++ (if mscEvents.length > 0 then
          ⟨.registerDevice fd evMsc, none⟩ ::
            mscEvents.map (fun event => ⟨.ioctl fd uiSetMscBit event, none⟩)
        else [])


/-- How a creation can end, as far as registration goes: aborted at a failed registration
control call, or without any failed registration control call. -/
def Outcome {α : Type} (text : Call → String) (fd : Nat) (w : World)
    (res : Except GoError α × World) : Prop :=
  Aborted text fd w res ∨ Unfailed w res

/-- The lines that `createVGenericGamepadDevice` prints when all registration calls
succeed. -/
def gamepadAnnouncements (keys absEvents mscEvents : List Nat) : List String :=
  (keys.map (fun code => ["registering uiSetKeyBit 0x" ++ fmtHex code ++ "\n"])).flatten
    ++ (absEvents.map (fun event => ["registering uiSetAbsBit 0x" ++ fmtHex event ++ "\n"])).flatten
    ++ (mscEvents.map (fun event => ["registering uiSetMscBit 0x" ++ fmtHex event ++ "\n"])).flatten

/-- The descriptor that `createVGenericGamepadDevice` hands to device creation. -/
def gamepadDescriptor (bustype : Nat) (name : String) (vendor product version : Nat) :
    uinputUserDev :=
  { Name := toUinputName name,
    ID := { Bustype := bustype, Vendor := vendor, Product := product, Version := version },
    Absmin := zeroAxes, Absmax := zeroAxes, Absfuzz := zeroAxes, Absflat := zeroAxes }

/-- An operating system for the examples: every call succeeds, the descriptor handed out
is 5. -/
def everyCallSucceeds : OS :=
  ⟨fun _ _ => none, fun _ _ => 5, fun _ _ => "input7"⟩

/-- An operating system for the examples: the control call "enable category" for keys
fails, with the error it has on the regular file of
`TestMouseAbsCreationFailsOnWrongPathName`; every other call succeeds. -/
def keyCategoryFails : OS :=
  ⟨fun _ c => match c with
      | .registerDevice _ 1 => some ⟨"failed to close device: inappropriate ioctl for device", false⟩
      | _ => none,
    fun _ _ => 5, fun _ _ => "input7"⟩

/-- An operating system for the examples: the control call "enable code" for code 305
fails; every other call succeeds. -/
def keyCode305Fails : OS :=
  ⟨fun _ c => match c with
      | .ioctl _ _ 305 => some ⟨"invalid argument", false⟩
      | _ => none,
    fun _ _ => 5, fun _ _ => "input7"⟩

/-- The world of the examples before anything happened. -/
def freshWorld : World := ⟨[], [], []⟩

/-- The enable-category control calls of a trace, in order, by their event type. -/
def categoryCalls : List Event → List Nat
  | [] => []
  | ⟨.registerDevice _ evType, _⟩ :: rest => evType :: categoryCalls rest
  | _ :: rest => categoryCalls rest

/-- The categories present in a capability set: those of the key, absolute and misc
categories whose code list is not empty. -/
def categoriesPresent (keys absEvents mscEvents : List Nat) : List Nat :=
  (if keys = [] then [] else [evKey]) ++ (if absEvents = [] then [] else [evAbs])
    ++ (if mscEvents = [] then [] else [evMsc])

/-- The descriptor that `createMouseAbs` hands to device creation. -/
def mouseAbsDescriptor (name : String) (minX maxX minY maxY : Int) : uinputUserDev :=
  { Name := toUinputName name,
    ID := { Bustype := busUsb, Vendor := 0x4711, Product := 0x0816, Version := 1 },
    Absmin := (zeroAxes.set absX minX).set absY minY,
    Absmax := (zeroAxes.set absX maxX).set absY maxY,
    Absfuzz := zeroAxes,
    Absflat := zeroAxes }

/-! ## Event emission: lemmas -/

/-- A write on an open descriptor that the operating system accepts appends exactly that
record to the trace. -/
theorem fileWrite_of_open (os : OS) (fd : Nat) (buf : inputEvent) (w : World)
    (hopen : fd ∈ w.openFds) (hok : os.respond w.trace (.write fd buf) = none) :
    fileWrite os fd buf w = (none, { w with trace := w.trace ++ [⟨.write fd buf, none⟩] }) := by
  simp [fileWrite, issue, hopen, hok]

/-- A write on a closed descriptor fails and leaves the world as it is. -/
theorem fileWrite_of_closed (os : OS) (fd : Nat) (buf : inputEvent) (w : World)
    (hclosed : fd ∉ w.openFds) : fileWrite os fd buf w = (some errClosed, w) := by
  simp [fileWrite, hclosed]

/-- The sync record on an open descriptor that accepts writes. -/
theorem syncEvents_of_open (os : OS) (fd : Nat) (w : World) (hopen : fd ∈ w.openFds)
    (hok : ∀ tr buf, os.respond tr (.write fd buf) = none) :
    syncEvents os fd w =
      (none, { w with trace := w.trace ++ [⟨.write fd ⟨⟨0, 0⟩, evSyn, synReport, 0⟩, none⟩] }) := by
  simp [syncEvents, inputEventToBuffer, fileWrite_of_open os fd _ w hopen (hok _ _), uint16,
    synReport]

/-- A button event on an open descriptor that accepts writes: the key event, then sync. -/
theorem sendBtnEvent_of_open (os : OS) (fd : Nat) (key : Nat) (btnState : Int) (w : World)
    (hopen : fd ∈ w.openFds) (hok : ∀ tr buf, os.respond tr (.write fd buf) = none) :
    sendBtnEvent os fd [key] btnState w =
      (none, { w with trace := w.trace ++
        [⟨.write fd ⟨⟨0, 0⟩, evKey, uint16 key, btnState⟩, none⟩,
         ⟨.write fd ⟨⟨0, 0⟩, evSyn, synReport, 0⟩, none⟩] }) := by
  have h1 := fileWrite_of_open os fd ⟨⟨0, 0⟩, evKey, uint16 key, btnState⟩ w hopen (hok _ _)
  simp [sendBtnEvent, sendBtnEventLoop, inputEventToBuffer, h1]
  rw [syncEvents_of_open os fd _ (by simpa using hopen) hok]
  simp

/-- A button event on a closed descriptor fails and writes nothing. -/
theorem sendBtnEvent_of_closed (os : OS) (fd : Nat) (key : Nat) (btnState : Int) (w : World)
    (hclosed : fd ∉ w.openFds) :
    sendBtnEvent os fd [key] btnState w = (some errClosed, w) := by
  simp [sendBtnEvent, sendBtnEventLoop, inputEventToBuffer, fileWrite_of_closed os fd _ w hclosed]

/-- After `closeDevice` the descriptor is not open any more. -/
theorem closeDevice_not_open (os : OS) (fd : Nat) (w : World) :
    fd ∉ (closeDevice os fd w).2.openFds := by
  unfold closeDevice
  split
  · simp
  · assumption

/-! ## Event emission: the claims -/

/-- C1: on an open handle whose writes succeed, `MoveTo(x, y)` returns no error and writes
exactly three records, in this order: the absolute-axis event of `absX` with value `x`, the
absolute-axis event of `absY` with value `-1` if `x = 0` and `y = 0` and `y` otherwise, and
one sync record. -/
theorem MoveTo_writes_absX_absY_sync (os : OS) (vAbs : vMouseAbs) (x y : Int) (w : World)
    (hopen : vAbs.deviceFile ∈ w.openFds)
    (hok : ∀ tr buf, os.respond tr (.write vAbs.deviceFile buf) = none) :
    vAbs.MoveTo os x y w =
      (none, { w with trace := w.trace ++
        [⟨.write vAbs.deviceFile ⟨⟨0, 0⟩, evAbs, absX, x⟩, none⟩,
         ⟨.write vAbs.deviceFile ⟨⟨0, 0⟩, evAbs, absY, if x = 0 ∧ y = 0 then -1 else y⟩, none⟩,
         ⟨.write vAbs.deviceFile ⟨⟨0, 0⟩, evSyn, synReport, 0⟩, none⟩] }) := by
  have hy : (if x = 0 ∧ y = 0 then wrapInt32 (y - 1) else y) = if x = 0 ∧ y = 0 then -1 else y := by
    split
    · next h => rw [h.2]; decide
    · rfl
  have h1 := fileWrite_of_open os vAbs.deviceFile ⟨⟨0, 0⟩, evAbs, absX, x⟩ w hopen (hok _ _)
  have h2 := fileWrite_of_open os vAbs.deviceFile
    ⟨⟨0, 0⟩, evAbs, absY, if x = 0 ∧ y = 0 then -1 else y⟩
    { w with trace := w.trace ++ [⟨.write vAbs.deviceFile ⟨⟨0, 0⟩, evAbs, absX, x⟩, none⟩] }
    hopen (hok _ _)
  simp only [vMouseAbs.MoveTo, vMouseAbs.sendAbsEvent, sendAbsEventLoop, inputEventToBuffer, hy,
    h1, h2]
  rw [syncEvents_of_open os vAbs.deviceFile _ (by simpa using hopen) hok]
  simp

/-- Witness of C1: `MoveTo(0, 0)` on descriptor 5 writes the values `(0, -1)`. -/
theorem MoveTo_writes_absX_absY_sync_witness :
    (⟨"Test Basic MouseAbs", 5⟩ : vMouseAbs).MoveTo
        ⟨fun _ _ => none, fun _ _ => 5, fun _ _ => "input7"⟩ 0 0 ⟨[], [5], []⟩ =
      (none, { (⟨[], [5], []⟩ : World) with trace := [] ++
        [⟨.write 5 ⟨⟨0, 0⟩, evAbs, absX, 0⟩, none⟩,
         ⟨.write 5 ⟨⟨0, 0⟩, evAbs, absY, if (0 : Int) = 0 ∧ (0 : Int) = 0 then -1 else 0⟩, none⟩,
         ⟨.write 5 ⟨⟨0, 0⟩, evSyn, synReport, 0⟩, none⟩] }) :=
  MoveTo_writes_absX_absY_sync ⟨fun _ _ => none, fun _ _ => 5, fun _ _ => "input7"⟩
    ⟨"Test Basic MouseAbs", 5⟩ 0 0 ⟨[], [5], []⟩ (by decide) (fun _ _ => rfl)

/-- C2: `MoveTo(0, 0)` and `MoveTo(0, -1)` return the same result and leave the same world,
hence write the same sequence of records, on every handle and in every world. -/
theorem MoveTo_origin_eq_MoveTo_zero_minus_one (os : OS) (vAbs : vMouseAbs) (w : World) :
    vAbs.MoveTo os 0 0 w = vAbs.MoveTo os 0 (-1) w := by
  have h : wrapInt32 (-1) = -1 := by decide
  simp [vMouseAbs.MoveTo, vMouseAbs.sendAbsEvent, h]


/-- Press, release and click of one button on an open descriptor that accepts writes. -/
theorem clickIsPressThenRelease_of_open (os : OS) (fd key : Nat) (hkey : uint16 key = key)
    (text : String) (w : World) (hopen : fd ∈ w.openFds)
    (hok : ∀ tr buf, os.respond tr (.write fd buf) = none) :
    ClickIsPressThenRelease fd key
      (fun w =>
        match sendBtnEvent os fd [key] btnStatePressed w with
        | (some err, w1) => (some (fmtErrorf (text ++ err.msg)), w1)
        | (none, w1) => sendBtnEvent os fd [key] btnStateReleased w1)
      (sendBtnEvent os fd [key] btnStatePressed)
      (sendBtnEvent os fd [key] btnStateReleased) w := by
  have hp := sendBtnEvent_of_open os fd key btnStatePressed w hopen hok
  have hr := sendBtnEvent_of_open os fd key btnStateReleased (sendBtnEvent os fd [key] btnStatePressed w).2
    (by rw [hp]; exact hopen) hok
  refine ⟨?_, ?_, ?_⟩
  · rw [hp, hkey]; rfl
  · rw [hr, hp, hkey]; simp [btnStatePressed, btnStateReleased]
  · simp only [hp]

/-- C3: `Close` leaves the descriptor of the handle closed, and on a handle whose
descriptor is closed every action method (`MoveTo`, `Wheel`, the three presses, releases
and clicks, and `FetchSyspath`) returns an error and leaves the world, and with it the
trace of the device, as it was. -/
theorem actions_fail_after_Close (os : OS) (vAbs : vMouseAbs) (w0 : World) :
    vAbs.deviceFile ∉ (vAbs.Close os w0).2.openFds ∧
    ∀ w : World, vAbs.deviceFile ∉ w.openFds →
      (∀ x y, ∃ err, vAbs.MoveTo os x y w = (some err, w)) ∧
      (∀ horizontal delta, ∃ err, vAbs.Wheel os horizontal delta w = (some err, w)) ∧
      (∃ err, vAbs.LeftPress os w = (some err, w)) ∧
      (∃ err, vAbs.LeftRelease os w = (some err, w)) ∧
      (∃ err, vAbs.LeftClick os w = (some err, w)) ∧
      (∃ err, vAbs.RightPress os w = (some err, w)) ∧
      (∃ err, vAbs.RightRelease os w = (some err, w)) ∧
      (∃ err, vAbs.RightClick os w = (some err, w)) ∧
      (∃ err, vAbs.MiddlePress os w = (some err, w)) ∧
      (∃ err, vAbs.MiddleRelease os w = (some err, w)) ∧
      (∃ err, vAbs.MiddleClick os w = (some err, w)) ∧
      (∃ path err, vAbs.FetchSyspath os w = ((path, some err), w)) := by
  refine ⟨closeDevice_not_open os vAbs.deviceFile w0, ?_⟩
  intro w hclosed
  have hb := fun key st => sendBtnEvent_of_closed os vAbs.deviceFile key st w hclosed
  have hw := fun buf => fileWrite_of_closed os vAbs.deviceFile buf w hclosed
  refine ⟨?_, ?_, ?_, ?_, ?_, ?_, ?_, ?_, ?_, ?_, ?_, ?_⟩
  · intro x y
    simp [vMouseAbs.MoveTo, vMouseAbs.sendAbsEvent, sendAbsEventLoop, inputEventToBuffer, hw]
  · intro horizontal delta
    simp [vMouseAbs.Wheel, vMouseAbs.sendRelEvent, inputEventToBuffer, hw]
  · exact ⟨_, hb _ _⟩
  · exact ⟨_, hb _ _⟩
  · simp [vMouseAbs.LeftClick, hb]
  · exact ⟨_, hb _ _⟩
  · exact ⟨_, hb _ _⟩
  · simp [vMouseAbs.RightClick, hb]
  · exact ⟨_, hb _ _⟩
  · exact ⟨_, hb _ _⟩
  · simp [vMouseAbs.MiddleClick, hb]
  · simp [vMouseAbs.FetchSyspath, fetchSyspath, hclosed]

/-- Witness of C3: after `Close` of the handle on descriptor 5, `MoveTo(1, 1)` fails and
leaves the world as `Close` left it. -/
theorem actions_fail_after_Close_witness :
    ∃ err, (⟨"Test Basic MouseAbs", 5⟩ : vMouseAbs).MoveTo
        ⟨fun _ _ => none, fun _ _ => 5, fun _ _ => "input7"⟩ 1 1
        ((⟨"Test Basic MouseAbs", 5⟩ : vMouseAbs).Close
          ⟨fun _ _ => none, fun _ _ => 5, fun _ _ => "input7"⟩ ⟨[], [5], []⟩).2 =
      (some err, ((⟨"Test Basic MouseAbs", 5⟩ : vMouseAbs).Close
          ⟨fun _ _ => none, fun _ _ => 5, fun _ _ => "input7"⟩ ⟨[], [5], []⟩).2) :=
  ((actions_fail_after_Close ⟨fun _ _ => none, fun _ _ => 5, fun _ _ => "input7"⟩
      ⟨"Test Basic MouseAbs", 5⟩ ⟨[], [5], []⟩).2 _
    (actions_fail_after_Close ⟨fun _ _ => none, fun _ _ => 5, fun _ _ => "input7"⟩
      ⟨"Test Basic MouseAbs", 5⟩ ⟨[], [5], []⟩).1).1 1 1

/-- C4: on an open handle whose writes succeed, for each of the left, right and middle
button the click returns no error and writes exactly what the press followed by the release
writes: key-down, sync, key-up, sync. -/
theorem Click_eq_Press_then_Release (os : OS) (vAbs : vMouseAbs) (w : World)
    (hopen : vAbs.deviceFile ∈ w.openFds)
    (hok : ∀ tr buf, os.respond tr (.write vAbs.deviceFile buf) = none) :
    ClickIsPressThenRelease vAbs.deviceFile evMouseBtnLeft
      (vAbs.LeftClick os) (vAbs.LeftPress os) (vAbs.LeftRelease os) w ∧
    ClickIsPressThenRelease vAbs.deviceFile evMouseBtnRight
      (vAbs.RightClick os) (vAbs.RightPress os) (vAbs.RightRelease os) w ∧
    ClickIsPressThenRelease vAbs.deviceFile evMouseBtnMiddle
      (vAbs.MiddleClick os) (vAbs.MiddlePress os) (vAbs.MiddleRelease os) w :=
  ⟨clickIsPressThenRelease_of_open os vAbs.deviceFile evMouseBtnLeft (by decide)
      "Failed to issue the LeftClick event: " w hopen hok,
   clickIsPressThenRelease_of_open os vAbs.deviceFile evMouseBtnRight (by decide)
      "Failed to issue the RightClick event: " w hopen hok,
   clickIsPressThenRelease_of_open os vAbs.deviceFile evMouseBtnMiddle (by decide)
      "Failed to issue the MiddleClick event: " w hopen hok⟩

/-- Witness of C4: the three clicks on the open descriptor 5. -/
theorem Click_eq_Press_then_Release_witness :
    ClickIsPressThenRelease 5 evMouseBtnLeft
      ((⟨"Test Basic MouseAbs", 5⟩ : vMouseAbs).LeftClick
        ⟨fun _ _ => none, fun _ _ => 5, fun _ _ => "input7"⟩)
      ((⟨"Test Basic MouseAbs", 5⟩ : vMouseAbs).LeftPress
        ⟨fun _ _ => none, fun _ _ => 5, fun _ _ => "input7"⟩)
      ((⟨"Test Basic MouseAbs", 5⟩ : vMouseAbs).LeftRelease
        ⟨fun _ _ => none, fun _ _ => 5, fun _ _ => "input7"⟩) ⟨[], [5], []⟩ :=
  (Click_eq_Press_then_Release ⟨fun _ _ => none, fun _ _ => 5, fun _ _ => "input7"⟩
    ⟨"Test Basic MouseAbs", 5⟩ ⟨[], [5], []⟩ (by decide) (fun _ _ => rfl)).1

/-- C10: on an open handle whose writes succeed, `Wheel(horizontal, delta)` returns no
error and writes exactly one relative-axis record followed by one sync record; the record
has type `evRel`, a zero timestamp, value `delta`, and code `relHWheel` if `horizontal` and
`relWheel` otherwise. -/
theorem Wheel_writes_rel_then_sync (os : OS) (vAbs : vMouseAbs) (horizontal : Bool) (delta : Int)
    (w : World) (hopen : vAbs.deviceFile ∈ w.openFds)
    (hok : ∀ tr buf, os.respond tr (.write vAbs.deviceFile buf) = none) :
    vAbs.Wheel os horizontal delta w =
      (none, { w with trace := w.trace ++
        [⟨.write vAbs.deviceFile
            ⟨⟨0, 0⟩, evRel, if horizontal then relHWheel else relWheel, delta⟩, none⟩,
         ⟨.write vAbs.deviceFile ⟨⟨0, 0⟩, evSyn, synReport, 0⟩, none⟩] }) := by
  have hcode : uint16 (if horizontal then relHWheel else relWheel) =
      if horizontal then relHWheel else relWheel := by
    cases horizontal <;> decide
  have h1 := fileWrite_of_open os vAbs.deviceFile
    ⟨⟨0, 0⟩, evRel, if horizontal then relHWheel else relWheel, delta⟩ w hopen (hok _ _)
  simp only [vMouseAbs.Wheel, vMouseAbs.sendRelEvent, inputEventToBuffer, hcode, h1]
  rw [syncEvents_of_open os vAbs.deviceFile _ (by simpa using hopen) hok]
  simp

/-- Witness of C10: a horizontal wheel movement of `-3` on the open descriptor 5. -/
theorem Wheel_writes_rel_then_sync_witness :
    (⟨"Test Basic MouseAbs", 5⟩ : vMouseAbs).Wheel
        ⟨fun _ _ => none, fun _ _ => 5, fun _ _ => "input7"⟩ true (-3) ⟨[], [5], []⟩ =
      (none, { (⟨[], [5], []⟩ : World) with trace := [] ++
        [⟨.write 5 ⟨⟨0, 0⟩, evRel, if true = true then relHWheel else relWheel, -3⟩, none⟩,
         ⟨.write 5 ⟨⟨0, 0⟩, evSyn, synReport, 0⟩, none⟩] }) :=
  Wheel_writes_rel_then_sync ⟨fun _ _ => none, fun _ _ => 5, fun _ _ => "input7"⟩
    ⟨"Test Basic MouseAbs", 5⟩ true (-3) ⟨[], [5], []⟩ (by decide) (fun _ _ => rfl)


/-! ## Device creation: validation -/

/-- C7: with an empty path `CreateMouseAbs` and `CreateGenericGamepad` return no device and
the error "device path must not be empty", and leave the world as it was: no lookup, open,
control call or write reaches the operating system. -/
theorem Create_fails_on_empty_path (os : OS) (name : String) (minX maxX minY maxY : Int)
    (bustype vendor product version : Nat) (keys absEvents mscEvents : List Nat) (w : World) :
    CreateMouseAbs os "" name minX maxX minY maxY w =
      (.error ⟨"device path must not be empty", false⟩, w) ∧
    CreateGenericGamepad os "" bustype name vendor product version keys absEvents mscEvents w =
      (.error ⟨"device path must not be empty", false⟩, w) := by
  simp [CreateMouseAbs, CreateGenericGamepad, validateDevicePath, errorsNew]

/-- C8: for a path that passes the path check and a name of more than `uinputMaxNameSize`
bytes, `CreateMouseAbs` returns no device and the error "device name NAME is too long
(maximum of 80 characters allowed)"; the lookup of the path check is the only call that
reaches the operating system: the device file is not opened and no control call is
issued. -/
theorem CreateMouseAbs_fails_on_long_name (os : OS) (path name : String)
    (minX maxX minY maxY : Int) (w : World)
    (hpath : path ≠ "") (hstat : os.respond w.trace (.stat path) = none)
    (hlong : uinputMaxNameSize < name.utf8ByteSize) :
    CreateMouseAbs os path name minX maxX minY maxY w =
      (.error ⟨"device name " ++ name ++ " is too long (maximum of "
          ++ toString uinputMaxNameSize ++ " characters allowed)", false⟩,
        { w with trace := w.trace ++ [⟨.stat path, none⟩] }) ∧
    toString uinputMaxNameSize = "80" := by
  have h0 : name.utf8ByteSize ≠ 0 := by
    intro h; rw [h] at hlong; exact absurd hlong (by decide)
  refine ⟨?_, by decide⟩
  simp [CreateMouseAbs, validateDevicePath, validateUinputName, issue, hpath, hstat, h0, hlong,
    fmtErrorf]

/-- Witness of C8: the name of 81 bytes of `TestMouseAbsCreationFailsIfNameIsTooLong`. -/
theorem CreateMouseAbs_fails_on_long_name_witness :
    CreateMouseAbs ⟨fun _ _ => none, fun _ _ => 5, fun _ _ => "input7"⟩ "/dev/uinput"
        "adsfdsferqewoirueworiuejdsfjdfa;ljoewrjeworiewuoruew;rj;kdlfjoeai;jfewoaifjef;das"
        0 1900 0 1080 ⟨[], [], []⟩ =
      (.error ⟨"device name "
          ++ "adsfdsferqewoirueworiuejdsfjdfa;ljoewrjeworiewuoruew;rj;kdlfjoeai;jfewoaifjef;das"
          ++ " is too long (maximum of " ++ toString uinputMaxNameSize ++ " characters allowed)",
          false⟩,
        { (⟨[], [], []⟩ : World) with trace := [] ++ [⟨.stat "/dev/uinput", none⟩] }) ∧
    toString uinputMaxNameSize = "80" :=
  CreateMouseAbs_fails_on_long_name ⟨fun _ _ => none, fun _ _ => 5, fun _ _ => "input7"⟩
    "/dev/uinput"
    "adsfdsferqewoirueworiuejdsfjdfa;ljoewrjeworiewuoruew;rj;kdlfjoeai;jfewoaifjef;das"
    0 1900 0 1080 ⟨[], [], []⟩ (by decide) rfl (by decide)

/-- C9: for a non-empty path whose lookup the operating system answers with an error `e`
of the "does not exist" category, `CreateMouseAbs` returns no device and that very error,
which `os.IsNotExist` recognises; the lookup is the only call that reaches the operating
system: no open, control call or write is performed. -/
theorem CreateMouseAbs_fails_on_missing_path (os : OS) (path name : String)
    (minX maxX minY maxY : Int) (w : World) (e : GoError)
    (hpath : path ≠ "") (hstat : os.respond w.trace (.stat path) = some e)
    (hcat : e.notExist = true) :
    CreateMouseAbs os path name minX maxX minY maxY w =
      (.error e, { w with trace := w.trace ++ [⟨.stat path, some e⟩] }) ∧
    osIsNotExist (some e) = true := by
  simp [CreateMouseAbs, validateDevicePath, issue, hpath, hstat, osIsNotExist, hcat]

/-- Witness of C9: the path of `TestMouseAbsCreationFailsOnNonExistentPathName`. -/
theorem CreateMouseAbs_fails_on_missing_path_witness :
    CreateMouseAbs
        ⟨fun _ c => match c with
          | .stat _ => some ⟨"stat /some/bogus/path: no such file or directory", true⟩
          | _ => none, fun _ _ => 5, fun _ _ => "input7"⟩
        "/some/bogus/path" "MouseAbsDevice" 0 1900 0 1080 ⟨[], [], []⟩ =
      (.error ⟨"stat /some/bogus/path: no such file or directory", true⟩,
        { (⟨[], [], []⟩ : World) with trace := [] ++
          [⟨.stat "/some/bogus/path",
            some ⟨"stat /some/bogus/path: no such file or directory", true⟩⟩] }) ∧
    osIsNotExist (some ⟨"stat /some/bogus/path: no such file or directory", true⟩) = true :=
  CreateMouseAbs_fails_on_missing_path _ "/some/bogus/path" "MouseAbsDevice" 0 1900 0 1080
    ⟨[], [], []⟩ ⟨"stat /some/bogus/path: no such file or directory", true⟩ (by decide) rfl rfl


/-! ## Device creation: registration -/

/-- A registration loop all of whose control calls succeed issues one call per code, in
the order of the list, and prints the announcements. -/
theorem registerCodes_of_ok (os : OS) (fd request : Nat) (announce : Nat → List String)
    (describe : Nat → String) (hok : ∀ tr code, os.respond tr (.ioctl fd request code) = none)
    (codes : List Nat) (w : World) :
    registerCodes os fd request announce describe codes w =
      (none, { w with
        trace := w.trace ++ codes.map (fun code => ⟨.ioctl fd request code, none⟩),
        stdout := w.stdout ++ (codes.map announce).flatten }) := by
  induction codes generalizing w with
  | nil => simp [registerCodes]
  | cons code rest ih =>
    simp only [registerCodes, ioctl, issue, hok]
    rw [ih]
    simp

/-- Closing an open descriptor appends the close to the trace and leaves the descriptor
closed. -/
theorem fileClose_of_open (os : OS) (fd : Nat) (w : World) (hopen : fd ∈ w.openFds) :
    (fileClose os fd w).2.trace = w.trace ++ [⟨.close fd, os.respond w.trace (.close fd)⟩] ∧
    fd ∉ (fileClose os fd w).2.openFds := by
  simp [fileClose, issue, hopen]

/-- Calls that succeeded before a creation step can be counted to the creation. -/
theorem outcome_extend {α : Type} (text : Call → String) (fd : Nat) (w w1 : World)
    (res : Except GoError α × World) (evs : List Event) (hw : w1.trace = w.trace ++ evs)
    (hevs : ∀ p ∈ evs, p.err = none ∧ p.call.isDescriptorWrite = false)
    (h : Outcome text fd w1 res) : Outcome text fd w res := by
  rcases h with ⟨ev, e, hreg, herr, pre, r, htr, hpre, hres, hclosed⟩ | ⟨issued, htr, hiss⟩
  · refine Or.inl ⟨ev, e, hreg, herr, evs ++ pre, r, ?_, ?_, hres, hclosed⟩
    · rw [htr, hw]; simp
    · intro p hp
      rcases List.mem_append.mp hp with h1 | h1
      · exact hevs p h1
      · exact hpre p h1
  · refine Or.inr ⟨evs ++ issued, ?_, ?_⟩
    · rw [htr, hw]; simp
    · intro p hp hreg
      rcases List.mem_append.mp hp with h1 | h1
      · exact (hevs p h1).1
      · exact hiss p h1 hreg

/-- The step "enable category": on failure the creation is aborted at this call, on success
the creation continues. -/
theorem outcome_registerDevice {α : Type} (os : OS) (text : Call → String) (fd evType : Nat)
    (s : String) (htext : text (.registerDevice fd evType) = s) (w : World)
    (hopen : fd ∈ w.openFds) (k : World → Except GoError α × World)
    (hk : ∀ w2 : World, fd ∈ w2.openFds → Outcome text fd w2 (k w2)) :
    Outcome text fd w
      (match registerDevice os fd evType w with
        | (some err, w2) => (.error (fmtErrorf (s ++ err.msg)), (fileClose os fd w2).2)
        | (none, w2) => k w2) := by
  unfold registerDevice issue
  cases hr : os.respond w.trace (.registerDevice fd evType) with
  | none =>
    simp only []
    exact outcome_extend text fd w _ _ [⟨.registerDevice fd evType, none⟩] rfl
      (by simp [Call.isDescriptorWrite]) (hk _ hopen)
  | some e =>
    simp only []
    have hc := fileClose_of_open os fd
      { w with trace := w.trace ++ [⟨.registerDevice fd evType, some e⟩] } hopen
    refine Or.inl ⟨⟨.registerDevice fd evType, some e⟩, e, rfl, rfl, [],
      os.respond (w.trace ++ [⟨.registerDevice fd evType, some e⟩]) (.close fd),
      ?_, by simp, ?_, hc.2⟩
    · rw [hc.1]; simp
    · simp [htext]

/-- The step "enable each code of a list": on failure the creation is aborted at the call
that failed, on success the creation continues. -/
theorem outcome_registerCodes {α : Type} (os : OS) (text : Call → String) (fd request : Nat)
    (announce : Nat → List String) (describe : Nat → String)
    (htext : ∀ code, text (.ioctl fd request code) = describe code)
    (k : World → Except GoError α × World)
    (hk : ∀ w2 : World, fd ∈ w2.openFds → Outcome text fd w2 (k w2))
    (codes : List Nat) (w : World) (hopen : fd ∈ w.openFds) :
    Outcome text fd w
      (match registerCodes os fd request announce describe codes w with
        | (some err, w3) => (.error err, w3)
        | (none, w3) => k w3) := by
  induction codes generalizing w with
  | nil => simpa [registerCodes] using hk w hopen
  | cons code rest ih =>
    unfold registerCodes ioctl issue
    cases hr : os.respond w.trace (.ioctl fd request code) with
    | none =>
      simp only [hr]
      exact outcome_extend text fd w _ _ [⟨.ioctl fd request code, none⟩] rfl
        (by simp [Call.isDescriptorWrite]) (ih _ hopen)
    | some e =>
      simp only [hr]
      have hc := fileClose_of_open os fd
        { w with stdout := w.stdout ++ announce code,
                 trace := w.trace ++ [⟨.ioctl fd request code, some e⟩] } hopen
      refine Or.inl ⟨⟨.ioctl fd request code, some e⟩, e, rfl, rfl, [],
        os.respond (w.trace ++ [⟨.ioctl fd request code, some e⟩]) (.close fd),
        ?_, by simp, ?_, hc.2⟩
      · rw [hc.1]; simp
      · simp [htext]

/-- The descriptor write ends the creation without a failed registration control call. -/
theorem outcome_createUsbDevice (os : OS) (text : Call → String) (fd : Nat)
    (dev : uinputUserDev) (w : World) :
    Outcome text fd w (createUsbDevice os fd dev w) := by
  unfold createUsbDevice issue
  cases hr : os.respond w.trace (.createUsbDevice fd dev) with
  | none => exact Or.inr ⟨[⟨.createUsbDevice fd dev, none⟩], rfl, by simp [Call.isRegistration]⟩
  | some e =>
    simp only []
    by_cases hopen : fd ∈ w.openFds
    · refine Or.inr ⟨[⟨.createUsbDevice fd dev, some e⟩,
        ⟨.close fd, os.respond (w.trace ++ [⟨.createUsbDevice fd dev, some e⟩]) (.close fd)⟩],
        ?_, ?_⟩
      · rw [(fileClose_of_open os fd _ (by simpa using hopen)).1]; simp
      · simp [Call.isRegistration]
    · refine Or.inr ⟨[⟨.createUsbDevice fd dev, some e⟩], ?_, by simp [Call.isRegistration]⟩
      simp [fileClose, hopen]


/-- How `createMouseAbs` ends. -/
theorem createMouseAbs_outcome (os : OS) (path name : String) (minX maxX minY maxY : Int)
    (w : World) :
    Outcome mouseAbsStepText (os.newFd w.trace path) w
      (createMouseAbs os path name minX maxX minY maxY w) := by
  unfold createMouseAbs createDeviceFile issue
  cases hr : os.respond w.trace (.createDeviceFile path) with
  | some e =>
    exact Or.inr ⟨[⟨.createDeviceFile path, some e⟩], rfl, by simp [Call.isRegistration]⟩
  | none =>
    simp only []
    refine outcome_extend _ _ w
      { trace := w.trace ++ [⟨.createDeviceFile path, none⟩],
        openFds := os.newFd w.trace path :: w.openFds, stdout := w.stdout }
      _ [⟨.createDeviceFile path, none⟩] rfl (by simp [Call.isDescriptorWrite]) ?_
    refine outcome_registerDevice os _ _ _ _ (by simp [mouseAbsStepText]) _ (by simp) _ ?_
    intro w2 h2
    refine outcome_registerCodes os _ _ _ _ _ (by intro c; simp [mouseAbsStepText]) _ ?_ _ w2 h2
    intro w3 h3
    refine outcome_registerDevice os _ _ _ _ (by simp [mouseAbsStepText, evRel, evKey]) _ h3 _ ?_
    intro w4 h4
    refine outcome_registerCodes os _ _ _ _ _
      (by intro c; simp [mouseAbsStepText, uiSetRelBit, uiSetKeyBit]) _ ?_ _ w4 h4
    intro w5 h5
    refine outcome_registerDevice os _ _ _ _ (by simp [mouseAbsStepText, evAbs, evRel, evKey])
      _ h5 _ ?_
    intro w6 h6
    refine outcome_registerCodes os _ _ _ _ _
      (by intro c; simp [mouseAbsStepText, uiSetAbsBit, uiSetRelBit, uiSetKeyBit]) _ ?_ _ w6 h6
    intro w7 _
    exact outcome_createUsbDevice os _ _ _ w7

/-- How `createVGenericGamepadDevice` ends. -/
theorem createVGenericGamepadDevice_outcome (os : OS) (path : String) (bustype : Nat)
    (name : String) (vendor product version : Nat) (keys absEvents mscEvents : List Nat)
    (w : World) :
    Outcome gamepadStepText (os.newFd w.trace path) w
      (createVGenericGamepadDevice os path bustype name vendor product version
        keys absEvents mscEvents w) := by
  unfold createVGenericGamepadDevice createDeviceFile issue
  cases hr : os.respond w.trace (.createDeviceFile path) with
  | some e =>
    exact Or.inr ⟨[⟨.createDeviceFile path, some e⟩], rfl, by simp [Call.isRegistration]⟩
  | none =>
    simp only []
    refine outcome_extend _ _ w
      { trace := w.trace ++ [⟨.createDeviceFile path, none⟩],
        openFds := os.newFd w.trace path :: w.openFds, stdout := w.stdout }
      _ [⟨.createDeviceFile path, none⟩] rfl (by simp [Call.isDescriptorWrite]) ?_
    refine outcome_registerDevice os _ _ _ _ (by simp [gamepadStepText]) _ (by simp) _ ?_
    intro w2 h2
    refine outcome_registerCodes os _ _ _ _ _ (by intro c; simp [gamepadStepText]) _ ?_ _ w2 h2
    intro w3 h3
    refine outcome_registerDevice os _ _ _ _ (by simp [gamepadStepText, evAbs, evKey]) _ h3 _ ?_
    intro w4 h4
    refine outcome_registerCodes os _ _ _ _ _
      (by intro c; simp [gamepadStepText, uiSetAbsBit, uiSetKeyBit]) _ ?_ _ w4 h4
    intro w5 h5
    by_cases hmsc : mscEvents.length > 0
    · simp only [hmsc, if_true]
      have key := outcome_registerDevice os gamepadStepText (os.newFd w.trace path) evMsc
        "failed to register misc event input device: "
        (by simp [gamepadStepText, evMsc, evAbs, evKey]) w5 h5
        (fun w6 =>
          match registerCodes os (os.newFd w.trace path) uiSetMscBit
              (fun event => ["registering uiSetMscBit 0x" ++ fmtHex event ++ "\n"])
              (fun event => "failed to register misc event " ++ toString event ++ ": ")
              mscEvents w6 with
          | (some err, w7) => (.error err, w7)
          | (none, w7) =>
            createUsbDevice os (os.newFd w.trace path)
              { Name := toUinputName name,
                ID := { Bustype := bustype, Vendor := vendor, Product := product,
                        Version := version },
                Absmin := zeroAxes, Absmax := zeroAxes, Absfuzz := zeroAxes,
                Absflat := zeroAxes } w7)
        (fun w6 h6 => outcome_registerCodes os _ _ _ _ _
          (by intro c; simp [gamepadStepText, uiSetMscBit, uiSetAbsBit, uiSetKeyBit]) _
          (fun w7 _ => outcome_createUsbDevice os _ _ _ w7) _ w6 h6)
      unfold registerDevice issue at key ⊢
      cases hr6 : os.respond w5.trace (.registerDevice (os.newFd w.trace path) evMsc) with
      | none => simpa only [hr6] using key
      | some e => simpa only [hr6] using key
    · simp only [hmsc, if_false]
      exact outcome_createUsbDevice os _ _ _ w5

/-- Handing the descriptor on inside a handle does not change how the creation ended. -/
theorem outcome_map {α β : Type} (text : Call → String) (fd : Nat) (w : World)
    (res : Except GoError α × World) (f : α → β) (h : Outcome text fd w res) :
    Outcome text fd w ((res.1.map f, res.2) : Except GoError β × World) := by
  rcases res with ⟨err | a, w2⟩
  · rcases h with ⟨ev, e, hreg, herr, pre, r, htr, hpre, hres, hclosed⟩ | ⟨issued, htr, hiss⟩
    · refine Or.inl ⟨ev, e, hreg, herr, pre, r, htr, hpre, ?_, hclosed⟩
      simpa [Except.map] using hres
    · exact Or.inr ⟨issued, htr, hiss⟩
  · rcases h with ⟨ev, e, _, _, pre, r, _, _, hres, _⟩ | ⟨issued, htr, hiss⟩
    · simp at hres
    · exact Or.inr ⟨issued, htr, hiss⟩

/-- A failed registration control call among the calls of a creation is the call at which
the creation was aborted. -/
theorem abortedAt_of_mem {α : Type} (text : Call → String) (fd : Nat) (w : World)
    (res : Except GoError α × World) (h : Outcome text fd w res) (ev : Event) (e : GoError)
    (hmem : ev ∈ res.2.trace.drop w.trace.length) (hreg : ev.call.isRegistration = true)
    (herr : ev.err = some e) : AbortedAt text fd w ev e res := by
  rcases h with ⟨ev0, e0, _, herr0, pre, r, htr, hpre, hres, hclosed⟩ | ⟨issued, htr, hiss⟩
  · rw [htr, List.append_assoc, List.drop_left] at hmem
    rcases List.mem_append.mp hmem with h1 | h1
    · have := (hpre ev h1).1
      rw [herr] at this
      exact absurd this (by simp)
    · simp only [List.mem_cons, List.mem_singleton, List.not_mem_nil, or_false] at h1
      rcases h1 with h1 | h1
      · subst h1
        have he : e0 = e := by
          rw [herr0] at herr
          exact Option.some.inj herr
        subst he
        exact ⟨pre, r, htr, hpre, hres, hclosed⟩
      · subst h1
        simp [Call.isRegistration] at hreg
  · rw [htr, List.drop_left] at hmem
    have := hiss ev hmem hreg
    rw [herr] at this
    exact absurd this (by simp)

/-- How `CreateMouseAbs` ends. -/
theorem CreateMouseAbs_outcome (os : OS) (path name : String) (minX maxX minY maxY : Int)
    (w : World) :
    Outcome mouseAbsStepText (os.newFd (w.trace ++ [⟨.stat path, none⟩]) path) w
      (CreateMouseAbs os path name minX maxX minY maxY w) := by
  unfold CreateMouseAbs validateDevicePath issue
  by_cases hpath : path = ""
  · exact Or.inr ⟨[], by simp [hpath], by simp⟩
  · simp only [hpath, if_false]
    cases hr : os.respond w.trace (.stat path) with
    | some e => exact Or.inr ⟨[⟨.stat path, some e⟩], rfl, by simp [Call.isRegistration]⟩
    | none =>
      simp only []
      cases hn : validateUinputName name with
      | some e => exact Or.inr ⟨[⟨.stat path, none⟩], rfl, by simp [Call.isRegistration]⟩
      | none =>
        simp only []
        refine outcome_extend _ _ w
          { trace := w.trace ++ [⟨.stat path, none⟩], openFds := w.openFds, stdout := w.stdout }
          _ [⟨.stat path, none⟩] rfl (by simp [Call.isDescriptorWrite]) ?_
        have h := outcome_map _ _ _ _ (fun fd => ({ name := name, deviceFile := fd } : vMouseAbs))
          (createMouseAbs_outcome os path name minX maxX minY maxY
            { trace := w.trace ++ [⟨.stat path, none⟩], openFds := w.openFds, stdout := w.stdout })
        rcases hres : createMouseAbs os path name minX maxX minY maxY
          { trace := w.trace ++ [⟨.stat path, none⟩], openFds := w.openFds, stdout := w.stdout }
          with ⟨err | a, w2⟩ <;> rw [hres] at h <;> exact h

/-- How `CreateGenericGamepad` ends. -/
theorem CreateGenericGamepad_outcome (os : OS) (path : String) (bustype : Nat) (name : String)
    (vendor product version : Nat) (keys absEvents mscEvents : List Nat) (w : World) :
    Outcome gamepadStepText (os.newFd (w.trace ++ [⟨.stat path, none⟩]) path) w
      (CreateGenericGamepad os path bustype name vendor product version
        keys absEvents mscEvents w) := by
  unfold CreateGenericGamepad validateDevicePath issue
  by_cases hpath : path = ""
  · exact Or.inr ⟨[], by simp [hpath], by simp⟩
  · simp only [hpath, if_false]
    cases hr : os.respond w.trace (.stat path) with
    | some e => exact Or.inr ⟨[⟨.stat path, some e⟩], rfl, by simp [Call.isRegistration]⟩
    | none =>
      simp only []
      cases hn : validateUinputName name with
      | some e => exact Or.inr ⟨[⟨.stat path, none⟩], rfl, by simp [Call.isRegistration]⟩
      | none =>
        simp only []
        refine outcome_extend _ _ w
          { trace := w.trace ++ [⟨.stat path, none⟩], openFds := w.openFds, stdout := w.stdout }
          _ [⟨.stat path, none⟩] rfl (by simp [Call.isDescriptorWrite]) ?_
        have h := outcome_map _ _ _ _ (fun fd => ({ name := name, deviceFile := fd } : vGamepad))
          (createVGenericGamepadDevice_outcome os path bustype name
            vendor product version keys absEvents mscEvents
            { trace := w.trace ++ [⟨.stat path, none⟩], openFds := w.openFds, stdout := w.stdout })
        rcases hres : createVGenericGamepadDevice os path bustype name
          vendor product version keys absEvents mscEvents
          { trace := w.trace ++ [⟨.stat path, none⟩], openFds := w.openFds, stdout := w.stdout }
          with ⟨err | a, w2⟩ <;> rw [hres] at h <;> exact h


/-- C6: when a registration control call (enable category or enable code) of
`CreateMouseAbs` or of `CreateGenericGamepad` fails with error `e`, every call before it
succeeded and none of them was the descriptor write, nothing but the close of the opened
device file follows it, the descriptor is closed, no handle is returned, and the message
of the returned error is the text of the step followed by the message of `e`: for the key
category of `CreateMouseAbs` "failed to register key device: ", for the key code `c` of
`CreateGenericGamepad` "failed to register key number c: ". -/
theorem registration_failure_aborts_creation (os : OS) (path name : String)
    (minX maxX minY maxY : Int) (bustype vendor product version : Nat)
    (keys absEvents mscEvents : List Nat) (w : World) (ev : Event) (e : GoError)
    (hreg : ev.call.isRegistration = true) (herr : ev.err = some e) :
    (ev ∈ (CreateMouseAbs os path name minX maxX minY maxY w).2.trace.drop w.trace.length →
      AbortedAt mouseAbsStepText (os.newFd (w.trace ++ [⟨.stat path, none⟩]) path) w ev e
        (CreateMouseAbs os path name minX maxX minY maxY w)) ∧
    (ev ∈ (CreateGenericGamepad os path bustype name vendor product version
          keys absEvents mscEvents w).2.trace.drop w.trace.length →
      AbortedAt gamepadStepText (os.newFd (w.trace ++ [⟨.stat path, none⟩]) path) w ev e
        (CreateGenericGamepad os path bustype name vendor product version
          keys absEvents mscEvents w)) ∧
    (∀ fd, mouseAbsStepText (.registerDevice fd evKey) = "failed to register key device: ") ∧
    (∀ fd c, gamepadStepText (.ioctl fd uiSetKeyBit c) =
      "failed to register key number " ++ toString c ++ ": ") := by
  refine ⟨fun hmem => ?_, fun hmem => ?_, ?_, ?_⟩
  · exact abortedAt_of_mem _ _ _ _ (CreateMouseAbs_outcome os path name minX maxX minY maxY w)
      ev e hmem hreg herr
  · exact abortedAt_of_mem _ _ _ _ (CreateGenericGamepad_outcome os path bustype name
      vendor product version keys absEvents mscEvents w) ev e hmem hreg herr
  · intro fd; simp [mouseAbsStepText]
  · intro fd c; simp [gamepadStepText]

/-- Witness of C6: `CreateMouseAbs` on a file that rejects the key category, and
`CreateGenericGamepad` on a device that rejects the key code 305. -/
theorem registration_failure_aborts_creation_witness :
    AbortedAt mouseAbsStepText
        (keyCategoryFails.newFd (freshWorld.trace ++ [⟨.stat "/tmp/uinput-mouse-test-1", none⟩])
          "/tmp/uinput-mouse-test-1")
        freshWorld ⟨.registerDevice 5 evKey,
          some ⟨"failed to close device: inappropriate ioctl for device", false⟩⟩
        ⟨"failed to close device: inappropriate ioctl for device", false⟩
        (CreateMouseAbs keyCategoryFails "/tmp/uinput-mouse-test-1" "DialDevice" 0 1900 0 1080
          freshWorld) ∧
    AbortedAt gamepadStepText
        (keyCode305Fails.newFd (freshWorld.trace ++ [⟨.stat "/dev/uinput", none⟩]) "/dev/uinput")
        freshWorld ⟨.ioctl 5 uiSetKeyBit 305, some ⟨"invalid argument", false⟩⟩
        ⟨"invalid argument", false⟩
        (CreateGenericGamepad keyCode305Fails "/dev/uinput" 3 "Pad" 1 2 3 [304, 305, 306] [0, 1] [4]
          freshWorld) :=
  ⟨(registration_failure_aborts_creation keyCategoryFails "/tmp/uinput-mouse-test-1" "DialDevice"
      0 1900 0 1080 3 1 2 3 [304, 305, 306] [0, 1] [4] freshWorld
      ⟨.registerDevice 5 evKey,
          some ⟨"failed to close device: inappropriate ioctl for device", false⟩⟩
      ⟨"failed to close device: inappropriate ioctl for device", false⟩ rfl rfl).1 (by decide),
   (registration_failure_aborts_creation keyCode305Fails "/dev/uinput" "Pad"
      0 1900 0 1080 3 1 2 3 [304, 305, 306] [0, 1] [4] freshWorld
      ⟨.ioctl 5 uiSetKeyBit 305, some ⟨"invalid argument", false⟩⟩
      ⟨"invalid argument", false⟩ rfl rfl).2.1 (by decide)⟩


/-! ## Device creation: the generic gamepad when every call succeeds -/

/-- The enable-code calls of a concatenation. -/
theorem enableCodeCalls_append (xs ys : List Event) :
    enableCodeCalls (xs ++ ys) = enableCodeCalls xs ++ enableCodeCalls ys := by
  induction xs with
  | nil => rfl
  | cons x rest ih =>
    rcases x with ⟨c, r⟩
    cases c <;> simp [enableCodeCalls, ih]

/-- The enable-code calls of the trace of a registration loop. -/
theorem enableCodeCalls_map_ioctl (fd request : Nat) (codes : List Nat) :
    enableCodeCalls (codes.map (fun code => (⟨.ioctl fd request code, none⟩ : Event))) =
      codes.map (fun code => (request, code)) := by
  induction codes with
  | nil => rfl
  | cons c rest ih => simp [enableCodeCalls, ih]

/-- The enable-code calls among closes: none. -/
theorem enableCodeCalls_of_close (fd : Nat) (post : List Event)
    (h : ∀ p ∈ post, p.call = .close fd) : enableCodeCalls post = [] := by
  induction post with
  | nil => rfl
  | cons x rest ih =>
    rcases x with ⟨c, r⟩
    have hc : c = .close fd := h ⟨c, r⟩ (by simp)
    subst hc
    simp only [enableCodeCalls]
    exact ih (fun p hp => h p (List.mem_cons_of_mem _ hp))

/-- The trace of the descriptor write: the write itself, and after it at most the close
of the descriptor. -/
theorem createUsbDevice_trace (os : OS) (fd : Nat) (dev : uinputUserDev) (w : World) :
    ∃ r post, (createUsbDevice os fd dev w).2.trace =
        w.trace ++ ⟨.createUsbDevice fd dev, r⟩ :: post ∧
      ∀ p ∈ post, p.call = .close fd := by
  unfold createUsbDevice issue
  cases hr : os.respond w.trace (.createUsbDevice fd dev) with
  | none => exact ⟨none, [], by simp, by simp⟩
  | some e =>
    simp only []
    by_cases hopen : fd ∈ w.openFds
    · refine ⟨some e,
        [⟨.close fd, os.respond (w.trace ++ [⟨.createUsbDevice fd dev, some e⟩]) (.close fd)⟩],
        ?_, by simp⟩
      rw [(fileClose_of_open os fd _ (by simpa using hopen)).1]; simp
    · exact ⟨some e, [], by simp [fileClose, hopen], by simp⟩

/-- When the open and every registration control call succeed,
`createVGenericGamepadDevice` reaches the descriptor write after exactly the calls of
`gamepadRegistration`. -/
theorem createVGenericGamepadDevice_of_ok (os : OS) (path : String) (bustype : Nat)
    (name : String) (vendor product version : Nat) (keys absEvents mscEvents : List Nat)
    (w : World) (hopen : os.respond w.trace (.createDeviceFile path) = none)
    (hreg : ∀ tr c, c.isRegistration = true → os.respond tr c = none) :
    createVGenericGamepadDevice os path bustype name vendor product version
        keys absEvents mscEvents w =
      createUsbDevice os (os.newFd w.trace path)
        (gamepadDescriptor bustype name vendor product version)
        { trace := w.trace ++ ⟨.createDeviceFile path, none⟩ ::
            gamepadRegistration (os.newFd w.trace path) keys absEvents mscEvents,
          openFds := os.newFd w.trace path :: w.openFds,
          stdout := w.stdout ++ gamepadAnnouncements keys absEvents mscEvents } := by
  have hcat : ∀ tr fd t, os.respond tr (.registerDevice fd t) = none :=
    fun tr fd t => hreg tr _ rfl
  have hcode : ∀ fd request tr code, os.respond tr (.ioctl fd request code) = none :=
    fun fd request tr code => hreg tr _ rfl
  unfold createVGenericGamepadDevice
  simp only [createDeviceFile, issue, hopen, registerDevice, hcat,
    registerCodes_of_ok os _ _ _ _ (hcode _ _)]
  by_cases hmsc : mscEvents.length > 0
  · simp only [hmsc, if_true, gamepadRegistration, gamepadAnnouncements, gamepadDescriptor]
    congr 2 <;> simp
  · have hnil : mscEvents = [] := by
      cases mscEvents with
      | nil => rfl
      | cons a rest => simp at hmsc
    subst hnil
    simp only [hmsc, if_false, gamepadRegistration, gamepadAnnouncements, gamepadDescriptor]
    congr 2 <;> simp

/-- None of the calls of `gamepadRegistration` is the descriptor write. -/
theorem gamepadRegistration_not_descriptorWrite (fd : Nat) (keys absEvents mscEvents : List Nat)
    (p : Event) (hp : p ∈ gamepadRegistration fd keys absEvents mscEvents) :
    p.call.isDescriptorWrite = false := by
  have hmap : ∀ (request : Nat) (codes : List Nat),
      p ∈ codes.map (fun code => (⟨.ioctl fd request code, none⟩ : Event)) →
      p.call.isDescriptorWrite = false := by
    intro request codes h
    obtain ⟨c, _, rfl⟩ := List.mem_map.mp h
    rfl
  unfold gamepadRegistration at hp
  rcases List.mem_append.mp hp with hp | hp
  · rcases List.mem_append.mp hp with hp | hp
    · rcases List.mem_append.mp hp with hp | hp
      · rcases List.mem_append.mp hp with hp | hp
        · rw [List.mem_singleton.mp hp]; rfl
        · exact hmap _ _ hp
      · rw [List.mem_singleton.mp hp]; rfl
    · exact hmap _ _ hp
  · by_cases hmsc : mscEvents.length > 0
    · simp only [hmsc, if_true] at hp
      rcases List.mem_cons.mp hp with rfl | hp
      · rfl
      · exact hmap _ _ hp
    · simp only [hmsc, if_false, List.not_mem_nil] at hp

/-- The enable-code calls of `gamepadRegistration`: the codes of the three lists, each
list in its order. -/
theorem enableCodeCalls_gamepadRegistration (fd : Nat) (keys absEvents mscEvents : List Nat) :
    enableCodeCalls (gamepadRegistration fd keys absEvents mscEvents) =
      keys.map (fun code => (uiSetKeyBit, code))
        ++ absEvents.map (fun event => (uiSetAbsBit, event))
        ++ mscEvents.map (fun event => (uiSetMscBit, event)) := by
  have hcat : ∀ t, enableCodeCalls [(⟨.registerDevice fd t, none⟩ : Event)] = [] := fun _ => rfl
  unfold gamepadRegistration
  rw [enableCodeCalls_append, enableCodeCalls_append, enableCodeCalls_append,
    enableCodeCalls_append, enableCodeCalls_map_ioctl, enableCodeCalls_map_ioctl, hcat, hcat]
  by_cases hmsc : mscEvents.length > 0
  · rw [if_pos hmsc]
    simp only [enableCodeCalls, enableCodeCalls_map_ioctl, List.nil_append, List.append_nil]
  · have hnil : mscEvents = [] := by
      cases mscEvents with
      | nil => rfl
      | cons a rest => simp at hmsc
    subst hnil
    simp [enableCodeCalls]

/-- C5: for a valid path and name, when the lookup, the open and every registration
control call succeed, the enable-code control calls that `CreateGenericGamepad` issues are
exactly `uiSetKeyBit` for each element of `keys`, then `uiSetAbsBit` for each element of
`absEvents`, then `uiSetMscBit` for each element of `mscEvents`, each list in its order;
they all precede the descriptor write, after which no enable-code call follows. -/
theorem CreateGenericGamepad_registers_codes_in_order (os : OS) (path : String) (bustype : Nat)
    (name : String) (vendor product version : Nat) (keys absEvents mscEvents : List Nat)
    (w : World) (hpath : path ≠ "") (hname : validateUinputName name = none)
    (hstat : os.respond w.trace (.stat path) = none)
    (hopen : os.respond (w.trace ++ [⟨.stat path, none⟩]) (.createDeviceFile path) = none)
    (hreg : ∀ tr c, c.isRegistration = true → os.respond tr c = none) :
    ∃ pre r post,
      (CreateGenericGamepad os path bustype name vendor product version
          keys absEvents mscEvents w).2.trace =
        w.trace ++ pre ++
          ⟨.createUsbDevice (os.newFd (w.trace ++ [⟨.stat path, none⟩]) path)
            (gamepadDescriptor bustype name vendor product version), r⟩ :: post ∧
      (∀ p ∈ pre, p.call.isDescriptorWrite = false) ∧
      enableCodeCalls pre =
        keys.map (fun code => (uiSetKeyBit, code))
          ++ absEvents.map (fun event => (uiSetAbsBit, event))
          ++ mscEvents.map (fun event => (uiSetMscBit, event)) ∧
      enableCodeCalls post = [] := by
  obtain ⟨r, post, htr, hpost⟩ := createUsbDevice_trace os
    (os.newFd (w.trace ++ [⟨.stat path, none⟩]) path)
    (gamepadDescriptor bustype name vendor product version)
    { trace := (w.trace ++ [⟨.stat path, none⟩]) ++ ⟨.createDeviceFile path, none⟩ ::
        gamepadRegistration (os.newFd (w.trace ++ [⟨.stat path, none⟩]) path)
          keys absEvents mscEvents,
      openFds := os.newFd (w.trace ++ [⟨.stat path, none⟩]) path :: w.openFds,
      stdout := w.stdout ++ gamepadAnnouncements keys absEvents mscEvents }
  have hinner := createVGenericGamepadDevice_of_ok os path bustype name vendor product version
    keys absEvents mscEvents
    { trace := w.trace ++ [⟨.stat path, none⟩], openFds := w.openFds, stdout := w.stdout }
    hopen hreg
  refine ⟨[⟨.stat path, none⟩, ⟨.createDeviceFile path, none⟩] ++
      gamepadRegistration (os.newFd (w.trace ++ [⟨.stat path, none⟩]) path)
        keys absEvents mscEvents, r, post, ?_, ?_, ?_,
    enableCodeCalls_of_close _ post hpost⟩
  · simp only [CreateGenericGamepad, validateDevicePath, issue, hpath, if_false, hstat, hname]
    rw [hinner]
    cases hres : createUsbDevice os (os.newFd (w.trace ++ [⟨.stat path, none⟩]) path)
      (gamepadDescriptor bustype name vendor product version)
      { trace := (w.trace ++ [⟨.stat path, none⟩]) ++ ⟨.createDeviceFile path, none⟩ ::
          gamepadRegistration (os.newFd (w.trace ++ [⟨.stat path, none⟩]) path)
            keys absEvents mscEvents,
        openFds := os.newFd (w.trace ++ [⟨.stat path, none⟩]) path :: w.openFds,
        stdout := w.stdout ++ gamepadAnnouncements keys absEvents mscEvents } with
    | mk res w2 =>
      rw [hres] at htr
      cases res <;> simpa using htr
  · intro p hp
    rcases List.mem_append.mp hp with hp | hp
    · simp only [List.mem_cons, List.mem_singleton, List.not_mem_nil, or_false] at hp
      rcases hp with rfl | rfl <;> rfl
    · exact gamepadRegistration_not_descriptorWrite _ _ _ _ p hp
  · rw [enableCodeCalls_append, enableCodeCalls_gamepadRegistration]
    rfl


/-- Witness of C5: a gamepad with the key codes 304 and 305, the axes 0 and 1 and the misc
code 4. -/
theorem CreateGenericGamepad_registers_codes_in_order_witness :
    ∃ pre r post,
      (CreateGenericGamepad everyCallSucceeds "/dev/uinput" 3 "Pad" 1 2 3 [304, 305] [0, 1] [4]
          freshWorld).2.trace =
        freshWorld.trace ++ pre ++
          ⟨.createUsbDevice
            (everyCallSucceeds.newFd (freshWorld.trace ++ [⟨.stat "/dev/uinput", none⟩])
              "/dev/uinput")
            (gamepadDescriptor 3 "Pad" 1 2 3), r⟩ :: post ∧
      (∀ p ∈ pre, p.call.isDescriptorWrite = false) ∧
      enableCodeCalls pre =
        [304, 305].map (fun code => (uiSetKeyBit, code))
          ++ [0, 1].map (fun event => (uiSetAbsBit, event))
          ++ [4].map (fun event => (uiSetMscBit, event)) ∧
      enableCodeCalls post = [] :=
  CreateGenericGamepad_registers_codes_in_order everyCallSucceeds "/dev/uinput" 3 "Pad" 1 2 3
    [304, 305] [0, 1] [4] freshWorld (by decide) (by decide) rfl rfl (fun _ _ _ => rfl)


/-! ## Device creation: the enable-category calls of the generic gamepad -/

/-- The enable-category calls of a concatenation. -/
theorem categoryCalls_append (xs ys : List Event) :
    categoryCalls (xs ++ ys) = categoryCalls xs ++ categoryCalls ys := by
  induction xs with
  | nil => rfl
  | cons x rest ih =>
    rcases x with ⟨c, r⟩
    cases c <;> simp [categoryCalls, ih]

/-- No enable-category call is among the calls of a registration loop. -/
theorem categoryCalls_map_ioctl (fd request : Nat) (codes : List Nat) :
    categoryCalls (codes.map (fun code => (⟨.ioctl fd request code, none⟩ : Event))) = [] := by
  induction codes with
  | nil => rfl
  | cons c rest ih => simp [categoryCalls, ih]

/-- No enable-category call is among closes. -/
theorem categoryCalls_of_close (fd : Nat) (post : List Event)
    (h : ∀ p ∈ post, p.call = .close fd) : categoryCalls post = [] := by
  induction post with
  | nil => rfl
  | cons x rest ih =>
    rcases x with ⟨c, r⟩
    have hc : c = .close fd := h ⟨c, r⟩ (by simp)
    subst hc
    simp only [categoryCalls]
    exact ih (fun p hp => h p (List.mem_cons_of_mem _ hp))

/-- When the lookup, the open and every registration control call succeed, the calls of
`CreateGenericGamepad` are the lookup, the open, the calls of `gamepadRegistration`, the
descriptor write and at most the close of the descriptor. -/
theorem CreateGenericGamepad_trace_of_ok (os : OS) (path : String) (bustype : Nat)
    (name : String) (vendor product version : Nat) (keys absEvents mscEvents : List Nat)
    (w : World) (hpath : path ≠ "") (hname : validateUinputName name = none)
    (hstat : os.respond w.trace (.stat path) = none)
    (hopen : os.respond (w.trace ++ [⟨.stat path, none⟩]) (.createDeviceFile path) = none)
    (hreg : ∀ tr c, c.isRegistration = true → os.respond tr c = none) :
    ∃ r post,
      (CreateGenericGamepad os path bustype name vendor product version
          keys absEvents mscEvents w).2.trace =
        w.trace ++ ([⟨.stat path, none⟩, ⟨.createDeviceFile path, none⟩] ++
            gamepadRegistration (os.newFd (w.trace ++ [⟨.stat path, none⟩]) path)
              keys absEvents mscEvents) ++
          ⟨.createUsbDevice (os.newFd (w.trace ++ [⟨.stat path, none⟩]) path)
            (gamepadDescriptor bustype name vendor product version), r⟩ :: post ∧
      ∀ p ∈ post, p.call = .close (os.newFd (w.trace ++ [⟨.stat path, none⟩]) path) := by
  obtain ⟨r, post, htr, hpost⟩ := createUsbDevice_trace os
    (os.newFd (w.trace ++ [⟨.stat path, none⟩]) path)
    (gamepadDescriptor bustype name vendor product version)
    { trace := (w.trace ++ [⟨.stat path, none⟩]) ++ ⟨.createDeviceFile path, none⟩ ::
        gamepadRegistration (os.newFd (w.trace ++ [⟨.stat path, none⟩]) path)
          keys absEvents mscEvents,
      openFds := os.newFd (w.trace ++ [⟨.stat path, none⟩]) path :: w.openFds,
      stdout := w.stdout ++ gamepadAnnouncements keys absEvents mscEvents }
  have hinner := createVGenericGamepadDevice_of_ok os path bustype name vendor product version
    keys absEvents mscEvents
    { trace := w.trace ++ [⟨.stat path, none⟩], openFds := w.openFds, stdout := w.stdout }
    hopen hreg
  refine ⟨r, post, ?_, hpost⟩
  simp only [CreateGenericGamepad, validateDevicePath, issue, hpath, if_false, hstat, hname]
  rw [hinner]
  cases hres : createUsbDevice os (os.newFd (w.trace ++ [⟨.stat path, none⟩]) path)
    (gamepadDescriptor bustype name vendor product version)
    { trace := (w.trace ++ [⟨.stat path, none⟩]) ++ ⟨.createDeviceFile path, none⟩ ::
        gamepadRegistration (os.newFd (w.trace ++ [⟨.stat path, none⟩]) path)
          keys absEvents mscEvents,
      openFds := os.newFd (w.trace ++ [⟨.stat path, none⟩]) path :: w.openFds,
      stdout := w.stdout ++ gamepadAnnouncements keys absEvents mscEvents } with
  | mk res w2 =>
    rw [hres] at htr
    cases res <;> simpa using htr


/-- The calls of `gamepadRegistration`, category by category: the key category and its
codes, the absolute category and its codes, and the misc category with its codes if there
is a misc code. -/
theorem gamepadRegistration_eq (fd : Nat) (keys absEvents mscEvents : List Nat) :
    gamepadRegistration fd keys absEvents mscEvents =
      ⟨.registerDevice fd evKey, none⟩ ::
          keys.map (fun code => (⟨.ioctl fd uiSetKeyBit code, none⟩ : Event))
        ++ ⟨.registerDevice fd evAbs, none⟩ ::
          absEvents.map (fun event => (⟨.ioctl fd uiSetAbsBit event, none⟩ : Event))
        ++ (if mscEvents = [] then []
            else ⟨.registerDevice fd evMsc, none⟩ ::
              mscEvents.map (fun event => (⟨.ioctl fd uiSetMscBit event, none⟩ : Event))) := by
  unfold gamepadRegistration
  cases mscEvents with
  | nil => simp
  | cons a rest => simp

/-- The enable-category calls of `gamepadRegistration`: key and absolute always, misc if
there is a misc code. -/
theorem categoryCalls_gamepadRegistration (fd : Nat) (keys absEvents mscEvents : List Nat) :
    categoryCalls (gamepadRegistration fd keys absEvents mscEvents) =
      [evKey, evAbs] ++ (if mscEvents = [] then [] else [evMsc]) := by
  rw [gamepadRegistration_eq, categoryCalls_append, categoryCalls_append]
  cases mscEvents with
  | nil => simp [categoryCalls, categoryCalls_map_ioctl]
  | cons a rest => simp [categoryCalls, categoryCalls_map_ioctl]

/-- C11, as the code has it: when the lookup, the open and every registration control call
succeed, `CreateGenericGamepad` issues the enable-category call of the key category and
that of the absolute category always, also for an empty list, and that of the misc
category exactly when `mscEvents` is not empty; each is issued once, immediately before
the enable-code calls of its category, and all of them before the descriptor write. -/
theorem CreateGenericGamepad_category_calls (os : OS) (path : String) (bustype : Nat)
    (name : String) (vendor product version : Nat) (keys absEvents mscEvents : List Nat)
    (w : World) (fd : Nat) (hfd : fd = os.newFd (w.trace ++ [⟨.stat path, none⟩]) path)
    (hpath : path ≠ "") (hname : validateUinputName name = none)
    (hstat : os.respond w.trace (.stat path) = none)
    (hopen : os.respond (w.trace ++ [⟨.stat path, none⟩]) (.createDeviceFile path) = none)
    (hreg : ∀ tr c, c.isRegistration = true → os.respond tr c = none) :
    ∃ r post,
      (CreateGenericGamepad os path bustype name vendor product version
          keys absEvents mscEvents w).2.trace =
        w.trace ++
          ([⟨.stat path, none⟩, ⟨.createDeviceFile path, none⟩]
            ++ (⟨.registerDevice fd evKey, none⟩ ::
                  keys.map (fun code => (⟨.ioctl fd uiSetKeyBit code, none⟩ : Event))
                ++ ⟨.registerDevice fd evAbs, none⟩ ::
                  absEvents.map (fun event => (⟨.ioctl fd uiSetAbsBit event, none⟩ : Event))
                ++ (if mscEvents = [] then []
                    else ⟨.registerDevice fd evMsc, none⟩ ::
                      mscEvents.map (fun event => (⟨.ioctl fd uiSetMscBit event, none⟩ : Event)))))
          ++ ⟨.createUsbDevice fd (gamepadDescriptor bustype name vendor product version), r⟩
            :: post ∧
      (∀ p ∈ post, p.call = .close fd) ∧
      categoryCalls ((CreateGenericGamepad os path bustype name vendor product version
          keys absEvents mscEvents w).2.trace.drop w.trace.length) =
        [evKey, evAbs] ++ (if mscEvents = [] then [] else [evMsc]) := by
  subst hfd
  obtain ⟨r, post, htr, hpost⟩ := CreateGenericGamepad_trace_of_ok os path bustype name
    vendor product version keys absEvents mscEvents w hpath hname hstat hopen hreg
  refine ⟨r, post, ?_, hpost, ?_⟩
  · rw [htr, gamepadRegistration_eq]
  · rw [htr, List.append_assoc, List.drop_left, categoryCalls_append, categoryCalls_append,
      categoryCalls_gamepadRegistration]
    have hpost0 := categoryCalls_of_close _ post hpost
    simp [categoryCalls, hpost0]

/-- Witness of C11 as the code has it: a gamepad without key codes and without misc codes;
the key category is enabled all the same, the misc category is not. -/
theorem CreateGenericGamepad_category_calls_witness :
    ∃ r post,
      (CreateGenericGamepad everyCallSucceeds "/dev/uinput" 3 "Pad" 1 2 3 [] [0, 1] []
          freshWorld).2.trace =
        freshWorld.trace ++
          ([⟨.stat "/dev/uinput", none⟩, ⟨.createDeviceFile "/dev/uinput", none⟩]
            ++ (⟨.registerDevice 5 evKey, none⟩ ::
                  ([] : List Nat).map (fun code => (⟨.ioctl 5 uiSetKeyBit code, none⟩ : Event))
                ++ ⟨.registerDevice 5 evAbs, none⟩ ::
                  [0, 1].map (fun event => (⟨.ioctl 5 uiSetAbsBit event, none⟩ : Event))
                ++ (if ([] : List Nat) = [] then []
                    else ⟨.registerDevice 5 evMsc, none⟩ ::
                      ([] : List Nat).map
                        (fun event => (⟨.ioctl 5 uiSetMscBit event, none⟩ : Event)))))
          ++ ⟨.createUsbDevice 5 (gamepadDescriptor 3 "Pad" 1 2 3), r⟩ :: post ∧
      (∀ p ∈ post, p.call = .close 5) ∧
      categoryCalls ((CreateGenericGamepad everyCallSucceeds "/dev/uinput" 3 "Pad" 1 2 3
          [] [0, 1] [] freshWorld).2.trace.drop freshWorld.trace.length) =
        [evKey, evAbs] ++ (if ([] : List Nat) = [] then [] else [evMsc]) :=
  CreateGenericGamepad_category_calls everyCallSucceeds "/dev/uinput" 3 "Pad" 1 2 3
    [] [0, 1] [] freshWorld 5 rfl (by decide) (by decide) rfl rfl (fun _ _ _ => rfl)

/-- Counterexample to C11 as stated: for a gamepad without key codes, with the axes 0 and 1
and without misc codes, every call succeeding, the enable-category calls issued are those
of the key and of the absolute category, while the only category present in the
capability set is the absolute one. -/
theorem CreateGenericGamepad_category_calls_counterexample :
    categoryCalls ((CreateGenericGamepad everyCallSucceeds "/dev/uinput" 3 "Pad" 1 2 3
        [] [0, 1] [] freshWorld).2.trace.drop freshWorld.trace.length) = [evKey, evAbs] ∧
    categoriesPresent [] [0, 1] [] = [evAbs] ∧
    categoryCalls ((CreateGenericGamepad everyCallSucceeds "/dev/uinput" 3 "Pad" 1 2 3
        [] [0, 1] [] freshWorld).2.trace.drop freshWorld.trace.length) ≠
      categoriesPresent [] [0, 1] [] := by
  refine ⟨by decide, by decide, by decide⟩


/-! ## Device creation: the absolute mouse when every call succeeds -/

/-- The bounds are on the axes `absX` and `absY` of the descriptor of `createMouseAbs`, every
other entry of the minimum and maximum arrays is zero, and the arrays have `absSize`
entries. -/
theorem mouseAbsDescriptor_axes (name : String) (minX maxX minY maxY : Int) :
    (mouseAbsDescriptor name minX maxX minY maxY).Absmin[absX]? = some minX ∧
    (mouseAbsDescriptor name minX maxX minY maxY).Absmin[absY]? = some minY ∧
    (mouseAbsDescriptor name minX maxX minY maxY).Absmax[absX]? = some maxX ∧
    (mouseAbsDescriptor name minX maxX minY maxY).Absmax[absY]? = some maxY ∧
    (∀ i, i < absSize → i ≠ absX → i ≠ absY →
      (mouseAbsDescriptor name minX maxX minY maxY).Absmin[i]? = some 0 ∧
      (mouseAbsDescriptor name minX maxX minY maxY).Absmax[i]? = some 0) ∧
    (mouseAbsDescriptor name minX maxX minY maxY).Absmin.length = absSize ∧
    (mouseAbsDescriptor name minX maxX minY maxY).Absmax.length = absSize := by
  refine ⟨?_, ?_, ?_, ?_, ?_, ?_, ?_⟩
  · simp [mouseAbsDescriptor, zeroAxes, absX, absY, absSize, List.getElem?_set]
  · simp [mouseAbsDescriptor, zeroAxes, absX, absY, absSize, List.getElem?_set]
  · simp [mouseAbsDescriptor, zeroAxes, absX, absY, absSize, List.getElem?_set]
  · simp [mouseAbsDescriptor, zeroAxes, absX, absY, absSize, List.getElem?_set]
  · intro i hi hx hy
    have hx1 : absX ≠ i := fun h => hx h.symm
    have hy1 : absY ≠ i := fun h => hy h.symm
    have hz : zeroAxes[i]? = some 0 := by
      unfold zeroAxes
      rw [List.getElem?_replicate]
      simp [hi]
    constructor
    · show ((zeroAxes.set absX minX).set absY minY)[i]? = some 0
      rw [List.getElem?_set_ne hy1, List.getElem?_set_ne hx1, hz]
    · show ((zeroAxes.set absX maxX).set absY maxY)[i]? = some 0
      rw [List.getElem?_set_ne hy1, List.getElem?_set_ne hx1, hz]
  · simp [mouseAbsDescriptor, zeroAxes]
  · simp [mouseAbsDescriptor, zeroAxes]

/-- When the open and every registration control call succeed, `createMouseAbs` reaches
the descriptor write after its fixed sequence of registration calls. -/
theorem createMouseAbs_of_ok (os : OS) (path name : String) (minX maxX minY maxY : Int)
    (w : World) (hopen : os.respond w.trace (.createDeviceFile path) = none)
    (hreg : ∀ tr c, c.isRegistration = true → os.respond tr c = none) :
    createMouseAbs os path name minX maxX minY maxY w =
      createUsbDevice os (os.newFd w.trace path)
        (mouseAbsDescriptor name minX maxX minY maxY)
        { trace := w.trace ++
            [⟨.createDeviceFile path, none⟩,
             ⟨.registerDevice (os.newFd w.trace path) evKey, none⟩,
             ⟨.ioctl (os.newFd w.trace path) uiSetKeyBit evMouseBtnLeft, none⟩,
             ⟨.ioctl (os.newFd w.trace path) uiSetKeyBit evMouseBtnRight, none⟩,
             ⟨.ioctl (os.newFd w.trace path) uiSetKeyBit evMouseBtnMiddle, none⟩,
             ⟨.registerDevice (os.newFd w.trace path) evRel, none⟩,
             ⟨.ioctl (os.newFd w.trace path) uiSetRelBit relWheel, none⟩,
             ⟨.ioctl (os.newFd w.trace path) uiSetRelBit relHWheel, none⟩,
             ⟨.registerDevice (os.newFd w.trace path) evAbs, none⟩,
             ⟨.ioctl (os.newFd w.trace path) uiSetAbsBit absX, none⟩,
             ⟨.ioctl (os.newFd w.trace path) uiSetAbsBit absY, none⟩],
          openFds := os.newFd w.trace path :: w.openFds,
          stdout := w.stdout } := by
  have hcat : ∀ tr fd t, os.respond tr (.registerDevice fd t) = none :=
    fun tr fd t => hreg tr _ rfl
  have hcode : ∀ fd request tr code, os.respond tr (.ioctl fd request code) = none :=
    fun fd request tr code => hreg tr _ rfl
  unfold createMouseAbs
  simp only [createDeviceFile, issue, hopen, registerDevice, hcat,
    registerCodes_of_ok os _ _ _ _ (hcode _ _), mouseAbsDescriptor]
  congr 2 <;> simp

/-- C12: for a valid path and name, when every call succeeds, `CreateMouseAbs` returns the
handle after exactly these calls, in this order: the lookup and the open, enable key
category, key bits left, right and middle button, enable relative category, relative bits
`relWheel` then `relHWheel`, enable absolute category, absolute bits `absX` then `absY`,
and only then the descriptor write; the descriptor has `minX`, `minY` in `Absmin` and
`maxX`, `maxY` in `Absmax` at `absX`, `absY`, zero in every other entry of the two arrays,
bus type USB, vendor 0x4711, product 0x0816 and version 1. -/
theorem CreateMouseAbs_registers_then_writes_descriptor (os : OS) (path name : String)
    (minX maxX minY maxY : Int) (w : World) (fd : Nat) (dev : uinputUserDev)
    (hfd : fd = os.newFd (w.trace ++ [⟨.stat path, none⟩]) path)
    (hdev : dev = mouseAbsDescriptor name minX maxX minY maxY)
    (hpath : path ≠ "") (hname : validateUinputName name = none)
    (hok : ∀ tr c, os.respond tr c = none) :
    CreateMouseAbs os path name minX maxX minY maxY w =
      (.ok { name := name, deviceFile := fd },
        { trace := w.trace ++
            [⟨.stat path, none⟩,
             ⟨.createDeviceFile path, none⟩,
             ⟨.registerDevice fd evKey, none⟩,
             ⟨.ioctl fd uiSetKeyBit evMouseBtnLeft, none⟩,
             ⟨.ioctl fd uiSetKeyBit evMouseBtnRight, none⟩,
             ⟨.ioctl fd uiSetKeyBit evMouseBtnMiddle, none⟩,
             ⟨.registerDevice fd evRel, none⟩,
             ⟨.ioctl fd uiSetRelBit relWheel, none⟩,
             ⟨.ioctl fd uiSetRelBit relHWheel, none⟩,
             ⟨.registerDevice fd evAbs, none⟩,
             ⟨.ioctl fd uiSetAbsBit absX, none⟩,
             ⟨.ioctl fd uiSetAbsBit absY, none⟩,
             ⟨.createUsbDevice fd dev, none⟩],
          openFds := fd :: w.openFds,
          stdout := w.stdout }) ∧
    dev.Absmin[absX]? = some minX ∧ dev.Absmin[absY]? = some minY ∧
    dev.Absmax[absX]? = some maxX ∧ dev.Absmax[absY]? = some maxY ∧
    (∀ i, i < absSize → i ≠ absX → i ≠ absY →
      dev.Absmin[i]? = some 0 ∧ dev.Absmax[i]? = some 0) ∧
    dev.ID = { Bustype := busUsb, Vendor := 0x4711, Product := 0x0816, Version := 1 } := by
  subst hfd hdev
  have hax := mouseAbsDescriptor_axes name minX maxX minY maxY
  refine ⟨?_, hax.1, hax.2.1, hax.2.2.1, hax.2.2.2.1, hax.2.2.2.2.1, rfl⟩
  have hinner := createMouseAbs_of_ok os path name minX maxX minY maxY
    { trace := w.trace ++ [⟨.stat path, none⟩], openFds := w.openFds, stdout := w.stdout }
    (hok _ _) (fun tr c _ => hok tr c)
  simp only [CreateMouseAbs, validateDevicePath, issue, hpath, if_false, hok, hname]
  rw [hinner]
  simp [createUsbDevice, issue, hok]

/-- Witness of C12: the device of `TestBasicMouseAbsMoves`, with X in 0..1900 and Y in
0..1080. -/
theorem CreateMouseAbs_registers_then_writes_descriptor_witness :
    CreateMouseAbs everyCallSucceeds "/dev/uinput" "Test Basic MouseAbs" 0 1900 0 1080
        freshWorld =
      (.ok { name := "Test Basic MouseAbs", deviceFile := 5 },
        { trace := freshWorld.trace ++
            [⟨.stat "/dev/uinput", none⟩,
             ⟨.createDeviceFile "/dev/uinput", none⟩,
             ⟨.registerDevice 5 evKey, none⟩,
             ⟨.ioctl 5 uiSetKeyBit evMouseBtnLeft, none⟩,
             ⟨.ioctl 5 uiSetKeyBit evMouseBtnRight, none⟩,
             ⟨.ioctl 5 uiSetKeyBit evMouseBtnMiddle, none⟩,
             ⟨.registerDevice 5 evRel, none⟩,
             ⟨.ioctl 5 uiSetRelBit relWheel, none⟩,
             ⟨.ioctl 5 uiSetRelBit relHWheel, none⟩,
             ⟨.registerDevice 5 evAbs, none⟩,
             ⟨.ioctl 5 uiSetAbsBit absX, none⟩,
             ⟨.ioctl 5 uiSetAbsBit absY, none⟩,
             ⟨.createUsbDevice 5 (mouseAbsDescriptor "Test Basic MouseAbs" 0 1900 0 1080), none⟩],
          openFds := 5 :: freshWorld.openFds,
          stdout := freshWorld.stdout }) ∧
    (mouseAbsDescriptor "Test Basic MouseAbs" 0 1900 0 1080).Absmin[absX]? = some 0 ∧
    (mouseAbsDescriptor "Test Basic MouseAbs" 0 1900 0 1080).Absmin[absY]? = some 0 ∧
    (mouseAbsDescriptor "Test Basic MouseAbs" 0 1900 0 1080).Absmax[absX]? = some 1900 ∧
    (mouseAbsDescriptor "Test Basic MouseAbs" 0 1900 0 1080).Absmax[absY]? = some 1080 ∧
    (∀ i, i < absSize → i ≠ absX → i ≠ absY →
      (mouseAbsDescriptor "Test Basic MouseAbs" 0 1900 0 1080).Absmin[i]? = some 0 ∧
      (mouseAbsDescriptor "Test Basic MouseAbs" 0 1900 0 1080).Absmax[i]? = some 0) ∧
    (mouseAbsDescriptor "Test Basic MouseAbs" 0 1900 0 1080).ID =
      { Bustype := busUsb, Vendor := 0x4711, Product := 0x0816, Version := 1 } :=
  CreateMouseAbs_registers_then_writes_descriptor everyCallSucceeds "/dev/uinput"
    "Test Basic MouseAbs" 0 1900 0 1080 freshWorld 5
    (mouseAbsDescriptor "Test Basic MouseAbs" 0 1900 0 1080) rfl rfl (by decide) (by decide)
    (fun _ _ => rfl)

end Uinput
